import Mathlib

/-!
# ESP32 Logitech shifter: the polling loop of `src/main.cpp`

A shallow embedding of the firmware's per-cycle logic (`next_mode`,
`change_button`, `loop`) together with theorems about the button events it
sends to the USB gamepad.

Conventions of the embedding:

* `HIGH` / `LOW` are the Booleans `true` / `false`, as in Arduino.
* `int` values (`horiz_value`, `vert_value`, `cur_button`) are `Int`; they are
  only compared, never computed with, so no overflow can occur.
* `unsigned long` is 32 bits wide on the ESP32; timestamps are `Nat` and every
  subtraction is taken modulo `2^32` explicitly (`ulong_sub`).
* The globals become the record `State`; the values read from the pins and the
  clock during one pass of `loop` become the record `Input`.  A pass reads the
  clock up to twice: in the handling of a rising edge (`Input.now`) and in the
  expiry test that follows it (`Input.now2`).
* `gamepad.releaseButton` / `gamepad.pressButton` become the events
  `Event.release` / `Event.press`, collected in call order.
-/

namespace Shifter

/-! ## Constants -/

/-- Arduino level `HIGH`. -/
def HIGH : Bool := true

/-- Arduino level `LOW`. -/
def LOW : Bool := false

def THRESH_DOWN : Int := 3000
def THRESH_UP : Int := 1000
def THRESH_LEFT : Int := 2000
def THRESH_RIGHT : Int := 1300

def SEQ_UP_BUTTON : Int := 7
def SEQ_DOWN_BUTTON : Int := 8
def HANDBRAKE_BUTTON : Int := 9

/-- Time window for the double press mode change, in milliseconds. -/
def DOUBLE_PRESS_WINDOW : Nat := 400

/-- Number of values of an `unsigned long` on the ESP32 (32 bits). -/
def ULONG_MOD : Nat := 4294967296

/-- Subtraction of two `unsigned long` values, wrapping modulo `2^32`. -/
def ulong_sub (a b : Nat) : Nat :=
  (a % ULONG_MOD + ULONG_MOD - b % ULONG_MOD) % ULONG_MOD

/-! ## Modes -/

/-- The enum `modes_t`. -/
inductive modes_t where
  | H_MODE
  | SEQUENTIAL
  | HANDBRAKE
  deriving DecidableEq, Repr

/-- Integer value of an enumerator (its position in the enum). -/
def modes_t.value : modes_t → Nat
  | .H_MODE => 0
  | .SEQUENTIAL => 1
  | .HANDBRAKE => 2

/-- The cast `(modes_t) n` for the values that can arise, `0`, `1` and `2`. -/
def modes_t.cast : Nat → modes_t
  | 0 => .H_MODE
  | 1 => .SEQUENTIAL
  | _ => .HANDBRAKE

/-- The function `next_mode`: `(modes_t)((m + 1) % 3)`. -/
def next_mode (m : modes_t) : modes_t :=
  modes_t.cast ((m.value + 1) % 3)

/-! ## State, inputs, events -/

/-- The global variables that survive from one pass of `loop` to the next.
`cur_button = -1` means that no button is pressed. -/
structure State where
  last_button_state : Bool
  last_press_time : Nat
  waiting_for_second_press : Bool
  cur_button : Int
  cur_mode : modes_t
  deriving DecidableEq, Repr

/-- What one pass of `loop` reads: `analogRead(HORIZ_PIN)`,
`analogRead(VERT_PIN)`, `digitalRead(BUTTON_PIN)` and the millisecond clock.
The clock is read in two places: `now` is the time at the call of `millis()`
in the handling of a rising edge (the window test, or the arming of the
detector), `now2` the time at the call of `millis()` in the expiry test.  A
pass without a rising edge only makes the second call. -/
structure Input where
  horiz : Int
  vert : Int
  button : Bool
  now : Nat
  now2 : Nat
  deriving DecidableEq, Repr

/-- The value returned by `millis()` in the handling of a rising edge: the
clock truncated to 32 bits. -/
def millis (i : Input) : Nat := i.now % ULONG_MOD

/-- The value returned by `millis()` in the expiry test: the clock truncated
to 32 bits. -/
def millis2 (i : Input) : Nat := i.now2 % ULONG_MOD

/-- A call made on the gamepad. -/
inductive Event where
  | release (b : Int)
  | press (b : Int)
  deriving DecidableEq, Repr

/-- Initial values of the globals. -/
def startup : State :=
  { last_button_state := LOW
    last_press_time := 0
    waiting_for_second_press := false
    cur_button := -1
    cur_mode := .H_MODE }

/-! ## The program -/

/-- The function `change_button`, returning the new state and the gamepad
calls it made, in order. -/
def change_button (new_button : Int) (s : State) : State × List Event :=
  if new_button = s.cur_button then
    (s, [])
  else
    let rel : List Event :=
      if s.cur_button ≠ -1 then [Event.release s.cur_button] else []
    let s1 : State := { s with cur_button := new_button }
    let prs : List Event :=
      if new_button ≠ -1 then [Event.press new_button] else []
    (s1, rel ++ prs)

/-- First half of `loop` ("Mode change handling"): the double press detector,
the expiry of its window and the update of `last_button_state`. -/
def mode_change (s : State) (i : Input) : State :=
  let s1 : State :=
    if i.button ≠ s.last_button_state ∧ i.button = HIGH then
      if s.waiting_for_second_press then
        if ulong_sub (millis i) s.last_press_time ≤ DOUBLE_PRESS_WINDOW then
          { s with cur_mode := next_mode s.cur_mode }
        else
          s
      else
        { s with last_press_time := millis i, waiting_for_second_press := true }
    else
      s
  let s2 : State :=
    if s1.waiting_for_second_press = true ∧
        ulong_sub (millis2 i) s1.last_press_time > DOUBLE_PRESS_WINDOW then
      { s1 with waiting_for_second_press := false }
    else
      s1
  { s2 with last_button_state := i.button }

/-- Second half of `loop` ("Handle gears"): classification of the two axes
under the current mode and the resulting call of `change_button`. -/
def handle_gears (s : State) (i : Input) : State × List Event :=
  if i.vert < THRESH_UP then
    if s.cur_mode = .H_MODE then
      if i.horiz > THRESH_LEFT then
        change_button 0 s
      else if i.horiz < THRESH_RIGHT then
        change_button 4 s
      else
        change_button 2 s
    else if s.cur_mode = .SEQUENTIAL then
      change_button SEQ_UP_BUTTON s
    else
      (s, [])
  else if i.vert > THRESH_DOWN then
    if s.cur_mode = .H_MODE then
      if i.horiz > THRESH_LEFT then
        change_button 1 s
      else if i.horiz < THRESH_RIGHT then
        if i.button = LOW then
          change_button 6 s
        else
          change_button 5 s
      else
        change_button 3 s
    else if s.cur_mode = .SEQUENTIAL then
      change_button SEQ_DOWN_BUTTON s
    else
      change_button HANDBRAKE_BUTTON s
  else
    change_button (-1) s

/-- One pass of `loop`: the new state and the gamepad calls, in order. -/
def loop (s : State) (i : Input) : State × List Event :=
  handle_gears (mode_change s i) i

/-- Passes of `loop` on a sequence of inputs, with all calls concatenated. -/
def run (s : State) : List Input → State × List Event
  | [] => (s, [])
  | i :: is =>
    let r := loop s i
    let r2 := run r.1 is
    (r2.1, r.2 ++ r2.2)

/-! ## The gamepad as a set of pressed buttons -/

/-- Effect of one call on the set of buttons the gamepad holds pressed. -/
def sink_step (p : Finset Int) : Event → Finset Int
  | .release b => p.erase b
  | .press b => insert b p

/-- Effect of a sequence of calls on the set of pressed buttons. -/
def replay (p : Finset Int) (evs : List Event) : Finset Int :=
  evs.foldl sink_step p

/-- The set of pressed buttons that `cur_button` stands for. -/
def active_set (b : Int) : Finset Int :=
  if b = -1 then ∅ else {b}

/-- A sequence of inputs that brings the initial globals to `HANDBRAKE` with
button 9 held: a double press (0 ms, 50 ms), expiry of the window, a second
double press (525 ms, 575 ms), then the stick pulled down. -/
def handbrake_trace : List Input :=
  [ ⟨1725, 1850, HIGH, 0, 0⟩, ⟨1725, 1850, LOW, 25, 25⟩, ⟨1725, 1850, HIGH, 50, 50⟩,
    ⟨1725, 1850, LOW, 500, 500⟩, ⟨1725, 1850, HIGH, 525, 525⟩, ⟨1725, 1850, LOW, 550, 550⟩,
    ⟨1725, 1850, HIGH, 575, 575⟩, ⟨1725, 3670, HIGH, 600, 600⟩ ]

/-- Number of rising edges in a sequence of passes: the passes whose pin
reads `HIGH` while the level recorded before them (`last` for the first pass,
the pin of the preceding pass afterwards) differs. -/
def rising_edges (last : Bool) : List Input → Nat
  | [] => 0
  | i :: is =>
    (if i.button ≠ last ∧ i.button = HIGH then 1 else 0) + rising_edges i.button is

/-! ## Basic facts about one pass -/

/-- The button recorded after `change_button` is the requested one. -/
theorem change_button_cur (c : Int) (s : State) :
    (change_button c s).1.cur_button = c := by
  unfold change_button
  split
  · next h => exact h.symm
  · rfl

/-- Apart from `cur_button`, `change_button` leaves the globals alone. -/
theorem change_button_frame (c : Int) (s : State) :
    (change_button c s).1.cur_mode = s.cur_mode ∧
    (change_button c s).1.waiting_for_second_press = s.waiting_for_second_press ∧
    (change_button c s).1.last_press_time = s.last_press_time ∧
    (change_button c s).1.last_button_state = s.last_button_state := by
  unfold change_button
  split <;> simp

/-- The calls made by `change_button`, written out. -/
theorem change_button_events (c : Int) (s : State) :
    (change_button c s).2 =
      if c = s.cur_button then []
      else (if s.cur_button ≠ -1 then [Event.release s.cur_button] else []) ++
           (if c ≠ -1 then [Event.press c] else []) := by
  unfold change_button
  split <;> rfl

/-- The double press detector never touches `cur_button`. -/
theorem mode_change_cur_button (s : State) (i : Input) :
    (mode_change s i).cur_button = s.cur_button := by
  unfold mode_change
  dsimp only
  repeat' split
  all_goals rfl

/-- The gear handling never touches the mode. -/
theorem handle_gears_mode (s : State) (i : Input) :
    (handle_gears s i).1.cur_mode = s.cur_mode := by
  unfold handle_gears
  repeat' split
  all_goals first | rfl | exact (change_button_frame _ s).1

/-- The mode used by the classification of a pass is the mode the pass ends
with. -/
theorem loop_mode (s : State) (i : Input) :
    (loop s i).1.cur_mode = (mode_change s i).cur_mode :=
  handle_gears_mode (mode_change s i) i

/-- A pass either makes no call and keeps `cur_button`, or behaves as one call
`change_button c` on the state left by the detector. -/
theorem handle_gears_shape (s : State) (i : Input) :
    handle_gears s i = (s, []) ∨ ∃ c : Int, handle_gears s i = change_button c s := by
  unfold handle_gears
  repeat' split
  all_goals first | exact Or.inl rfl | exact Or.inr ⟨_, rfl⟩

/-! ## The pressed set follows `cur_button` -/

theorem replay_append (p : Finset Int) (xs ys : List Event) :
    replay p (xs ++ ys) = replay (replay p xs) ys := by
  simp [replay, List.foldl_append]

theorem active_set_card (b : Int) : (active_set b).card ≤ 1 := by
  unfold active_set
  split <;> simp

/-- One call of `change_button` on a gamepad whose pressed set is the one
`cur_button` stands for: the set never exceeds one element on the way and ends
as the set of the new button. -/
theorem change_button_sink (c : Int) (s : State) :
    (∀ k, (replay (active_set s.cur_button) (((change_button c s).2).take k)).card ≤ 1) ∧
    replay (active_set s.cur_button) (change_button c s).2 = active_set c := by
  rw [change_button_events]
  by_cases hca : c = s.cur_button
  · subst hca
    simp [replay, active_set_card]
  · rw [if_neg hca]
    by_cases ha : s.cur_button = -1 <;> by_cases hc : c = -1
    · exact absurd (hc.trans ha.symm) hca
    · refine ⟨fun k => ?_, ?_⟩
      · rcases k with _ | k <;> simp [ha, hc, replay, sink_step, active_set]
      · simp [ha, hc, replay, sink_step, active_set]
    · refine ⟨fun k => ?_, ?_⟩
      · rcases k with _ | k <;> simp [ha, hc, replay, sink_step, active_set]
      · simp [ha, hc, replay, sink_step, active_set]
    · refine ⟨fun k => ?_, ?_⟩
      · rcases k with _ | _ | k <;> simp [ha, hc, replay, sink_step, active_set]
      · simp [ha, hc, replay, sink_step, active_set]

/-- One pass of `loop` on a gamepad in step with `cur_button`. -/
theorem loop_sink (s : State) (i : Input) :
    (∀ k, (replay (active_set s.cur_button) (((loop s i).2).take k)).card ≤ 1) ∧
    replay (active_set s.cur_button) (loop s i).2 =
      active_set (loop s i).1.cur_button := by
  unfold loop
  rw [← mode_change_cur_button s i]
  rcases handle_gears_shape (mode_change s i) i with h | ⟨c, h⟩
  · rw [h]
    simp [replay, active_set_card]
  · rw [h, change_button_cur]
    exact change_button_sink c (mode_change s i)

/-- Any number of passes on a gamepad in step with `cur_button`. -/
theorem run_sink (inputs : List Input) : ∀ s : State,
    (∀ k, (replay (active_set s.cur_button) (((run s inputs).2).take k)).card ≤ 1) ∧
    replay (active_set s.cur_button) (run s inputs).2 =
      active_set (run s inputs).1.cur_button := by
  induction inputs with
  | nil =>
    intro s
    simp [run, replay, active_set_card]
  | cons i is ih =>
    intro s
    obtain ⟨hk, hend⟩ := loop_sink s i
    obtain ⟨ihk, ihend⟩ := ih (loop s i).1
    refine ⟨fun k => ?_, ?_⟩
    · show (replay _ (((loop s i).2 ++ (run (loop s i).1 is).2).take k)).card ≤ 1
      rw [List.take_append_eq_append_take, replay_append]
      by_cases hle : k ≤ (loop s i).2.length
      · have h0 : k - (loop s i).2.length = 0 := Nat.sub_eq_zero_of_le hle
        rw [h0]
        simpa [replay] using hk k
      · have hfull : ((loop s i).2).take k = (loop s i).2 :=
          List.take_of_length_le (by omega)
        rw [hfull, hend]
        exact ihk _
    · show replay _ ((loop s i).2 ++ (run (loop s i).1 is).2) = _
      rw [replay_append, hend]
      exact ihend

/-- The calls of one pass, classified by the button held before and after. -/
theorem loop_events_shape (s : State) (i : Input) :
    ((loop s i).2 = [] ∧ (loop s i).1.cur_button = s.cur_button) ∨
    ((loop s i).2 = [Event.release s.cur_button] ∧
        s.cur_button ≠ -1 ∧ (loop s i).1.cur_button = -1) ∨
    ((loop s i).2 = [Event.press (loop s i).1.cur_button] ∧
        s.cur_button = -1 ∧ (loop s i).1.cur_button ≠ -1) ∨
    ((loop s i).2 = [Event.release s.cur_button, Event.press (loop s i).1.cur_button] ∧
        s.cur_button ≠ (loop s i).1.cur_button ∧
        s.cur_button ≠ -1 ∧ (loop s i).1.cur_button ≠ -1) := by
  unfold loop
  rw [← mode_change_cur_button s i]
  rcases handle_gears_shape (mode_change s i) i with h | ⟨c, h⟩
  · rw [h]
    exact Or.inl ⟨rfl, rfl⟩
  · rw [h, change_button_cur, change_button_events]
    by_cases hca : c = (mode_change s i).cur_button
    · left
      simp [hca]
    · rw [if_neg hca]
      have hac : (mode_change s i).cur_button ≠ c := fun h => hca h.symm
      by_cases ha : (mode_change s i).cur_button = -1 <;> by_cases hc : c = -1
      · exact absurd (hc.trans ha.symm) hca
      · right; right; left
        simp [ha, hc]
      · right; left
        simp [ha, hc]
      · right; right; right
        simp [ha, hc, hac]

/-! ## Mutual exclusion and the calls of `change_button` -/

/-- C1: starting from the initial globals with no button pressed at the
gamepad, for every sequence of inputs the set of pressed buttons obtained by
replaying the emitted calls has at most one element after every single call,
and after every pass it is the set that `cur_button` stands for (empty when
`cur_button` is `-1`). -/
theorem at_most_one_button_pressed (inputs : List Input) :
    (∀ k, (replay ∅ (((run startup inputs).2).take k)).card ≤ 1) ∧
    (∀ n, replay ∅ (run startup (inputs.take n)).2 =
        active_set (run startup (inputs.take n)).1.cur_button) :=
  ⟨(run_sink inputs startup).1, fun n => (run_sink (inputs.take n) startup).2⟩

/-- C2: `change_button c` does nothing when `c` is the active button;
otherwise it releases the active button exactly when there is one, then
presses `c` exactly when `c` is a button, and records `c`.  Hence one pass of
`loop` emits nothing, one release of the old button, one press of the new
button, or the release followed by the press of a different button. -/
theorem change_button_release_then_press (s : State) (c : Int) (i : Input) :
    change_button c s =
      (if c = s.cur_button then (s, [])
       else ({ s with cur_button := c },
             (if s.cur_button ≠ -1 then [Event.release s.cur_button] else []) ++
             (if c ≠ -1 then [Event.press c] else []))) ∧
    (((loop s i).2 = [] ∧ (loop s i).1.cur_button = s.cur_button) ∨
     ((loop s i).2 = [Event.release s.cur_button] ∧
        s.cur_button ≠ -1 ∧ (loop s i).1.cur_button = -1) ∨
     ((loop s i).2 = [Event.press (loop s i).1.cur_button] ∧
        s.cur_button = -1 ∧ (loop s i).1.cur_button ≠ -1) ∨
     ((loop s i).2 =
          [Event.release s.cur_button, Event.press (loop s i).1.cur_button] ∧
        s.cur_button ≠ (loop s i).1.cur_button ∧
        s.cur_button ≠ -1 ∧ (loop s i).1.cur_button ≠ -1)) := by
  refine ⟨?_, loop_events_shape s i⟩
  unfold change_button
  split <;> rfl

/-- The button a pass classified in `H_MODE` ends with, read off the two
axes and the pin. -/
theorem loop_cur_button_h_mode (s : State) (i : Input)
    (hmode : (loop s i).1.cur_mode = modes_t.H_MODE) :
    (loop s i).1.cur_button =
      if i.vert < 1000 then
        (if i.horiz > 2000 then 0 else if i.horiz < 1300 then 4 else 2)
      else if i.vert > 3000 then
        (if i.horiz > 2000 then 1
         else if i.horiz < 1300 then (if i.button = LOW then 6 else 5) else 3)
      else -1 := by
  rw [loop_mode] at hmode
  simp only [loop, handle_gears, hmode, THRESH_UP, THRESH_DOWN, THRESH_LEFT, THRESH_RIGHT]
  repeat' split
  all_goals first | exact change_button_cur _ _ | exact absurd trivial (by assumption)

/-! ## Classification in H mode -/

/-- C3 (as the code has it): in a pass classified in `H_MODE` with
`vert > 3000` and `horiz < 1300`, the pass ends with button 6 (reverse) when
the button pin reads `LOW` and with button 5 (gear 6) when it reads `HIGH`. -/
theorem reverse_when_button_low (s : State) (i : Input)
    (hmode : (loop s i).1.cur_mode = modes_t.H_MODE)
    (hv : i.vert > 3000) (hh : i.horiz < 1300) :
    (i.button = LOW → (loop s i).1.cur_button = 6) ∧
    (i.button = HIGH → (loop s i).1.cur_button = 5) := by
  rw [loop_mode] at hmode
  have h1 : ¬ i.vert < 1000 := by omega
  have h2 : ¬ i.horiz > 2000 := by omega
  constructor
  · intro hb
    simp [loop, handle_gears, hmode, THRESH_UP, THRESH_DOWN, THRESH_LEFT, THRESH_RIGHT,
      h1, h2, hv, hh, hb, change_button_cur]
  · intro hb
    have hb2 : ¬ i.button = LOW := by
      rw [hb]; decide
    simp [loop, handle_gears, hmode, THRESH_UP, THRESH_DOWN, THRESH_LEFT, THRESH_RIGHT,
      h1, h2, hv, hh, hb2, change_button_cur]

/-- Witness of `reverse_when_button_low`: the measured "down, right" position
from the initial globals, with the pin at `LOW`. -/
theorem reverse_when_button_low_witness :
    (loop startup ⟨1060, 3670, LOW, 0, 0⟩).1.cur_mode = modes_t.H_MODE ∧
    (3670 : Int) > 3000 ∧ (1060 : Int) < 1300 ∧
    ((LOW = LOW → (loop startup ⟨1060, 3670, LOW, 0, 0⟩).1.cur_button = 6) ∧
     (LOW = HIGH → (loop startup ⟨1060, 3670, LOW, 0, 0⟩).1.cur_button = 5)) :=
  ⟨by decide, by decide, by decide,
   reverse_when_button_low startup ⟨1060, 3670, LOW, 0, 0⟩ (by decide) (by decide) (by decide)⟩

/-- C3 (as stated) fails: from the initial globals, the pass with vert 3670,
horiz 1060 and the pin at `HIGH` is classified in `H_MODE` and ends with
button 5, not 6; with the pin at `LOW` it ends with button 6, not 5. -/
theorem reverse_when_button_high_fails :
    (loop startup ⟨1060, 3670, HIGH, 0, 0⟩).1.cur_mode = modes_t.H_MODE ∧
    (3670 : Int) > 3000 ∧ (1060 : Int) < 1300 ∧
    (loop startup ⟨1060, 3670, HIGH, 0, 0⟩).1.cur_button = 5 ∧
    (loop startup ⟨1060, 3670, HIGH, 0, 0⟩).1.cur_button ≠ 6 ∧
    (loop startup ⟨1060, 3670, LOW, 0, 0⟩).1.cur_mode = modes_t.H_MODE ∧
    (loop startup ⟨1060, 3670, LOW, 0, 0⟩).1.cur_button = 6 ∧
    (loop startup ⟨1060, 3670, LOW, 0, 0⟩).1.cur_button ≠ 5 := by
  decide

/-- C4: in a pass classified in `H_MODE` the button at the end is 0 for
up-left, 4 for up-right, 2 for up-centre, 1 for down-left and 3 for
down-centre, for every pin level; the thresholds are strict (horiz 2001 is
left, 1299 is right, 1300 and 2000 are centre, vert 999 is up, 3001 is down);
and an up-left pass followed by an up-centre pass, both in `H_MODE`, emits
release 0 then press 2 in the second pass. -/
theorem h_mode_gear_table (s : State) (i : Input)
    (hmode : (loop s i).1.cur_mode = modes_t.H_MODE) :
    (i.vert < 1000 → i.horiz > 2000 → (loop s i).1.cur_button = 0) ∧
    (i.vert < 1000 → i.horiz < 1300 → (loop s i).1.cur_button = 4) ∧
    (i.vert < 1000 → 1300 ≤ i.horiz → i.horiz ≤ 2000 → (loop s i).1.cur_button = 2) ∧
    (i.vert > 3000 → i.horiz > 2000 → (loop s i).1.cur_button = 1) ∧
    (i.vert > 3000 → 1300 ≤ i.horiz → i.horiz ≤ 2000 → (loop s i).1.cur_button = 3) ∧
    (i.vert = 999 → i.horiz = 2001 → (loop s i).1.cur_button = 0) ∧
    (i.vert = 999 → i.horiz = 1299 → (loop s i).1.cur_button = 4) ∧
    (i.vert = 999 → i.horiz = 1300 → (loop s i).1.cur_button = 2) ∧
    (i.vert = 999 → i.horiz = 2000 → (loop s i).1.cur_button = 2) ∧
    (i.vert = 3001 → i.horiz = 2001 → (loop s i).1.cur_button = 1) ∧
    (i.vert = 3001 → i.horiz = 1300 → (loop s i).1.cur_button = 3) ∧
    (i.vert = 3001 → i.horiz = 2000 → (loop s i).1.cur_button = 3) ∧
    (∀ j : Input, (loop (loop s i).1 j).1.cur_mode = modes_t.H_MODE →
      i.vert < 1000 → i.horiz > 2000 →
      j.vert < 1000 → 1300 ≤ j.horiz → j.horiz ≤ 2000 →
      (loop (loop s i).1 j).2 = [Event.release 0, Event.press 2]) := by
  have key := loop_cur_button_h_mode s i hmode
  have up_left : i.vert < 1000 → i.horiz > 2000 → (loop s i).1.cur_button = 0 := by
    intro hv hh
    rw [key, if_pos hv, if_pos hh]
  have up_right : i.vert < 1000 → i.horiz < 1300 → (loop s i).1.cur_button = 4 := by
    intro hv hh
    rw [key, if_pos hv, if_neg (by omega), if_pos hh]
  have up_mid : i.vert < 1000 → 1300 ≤ i.horiz → i.horiz ≤ 2000 →
      (loop s i).1.cur_button = 2 := by
    intro hv h1 h2
    rw [key, if_pos hv, if_neg (by omega), if_neg (by omega)]
  have down_left : i.vert > 3000 → i.horiz > 2000 → (loop s i).1.cur_button = 1 := by
    intro hv hh
    rw [key, if_neg (by omega), if_pos hv, if_pos hh]
  have down_mid : i.vert > 3000 → 1300 ≤ i.horiz → i.horiz ≤ 2000 →
      (loop s i).1.cur_button = 3 := by
    intro hv h1 h2
    rw [key, if_neg (by omega), if_pos hv, if_neg (by omega), if_neg (by omega)]
  refine ⟨up_left, up_right, up_mid, down_left, down_mid, ?_, ?_, ?_, ?_, ?_, ?_, ?_, ?_⟩
  · intro hv hh; exact up_left (by omega) (by omega)
  · intro hv hh; exact up_right (by omega) (by omega)
  · intro hv hh; exact up_mid (by omega) (by omega) (by omega)
  · intro hv hh; exact up_mid (by omega) (by omega) (by omega)
  · intro hv hh; exact down_left (by omega) (by omega)
  · intro hv hh; exact down_mid (by omega) (by omega) (by omega)
  · intro hv hh; exact down_mid (by omega) (by omega) (by omega)
  · intro j hj hv hh hjv hj1 hj2
    have h0 : (loop s i).1.cur_button = 0 := up_left hv hh
    have h2 : (loop (loop s i).1 j).1.cur_button = 2 := by
      rw [loop_cur_button_h_mode _ j hj, if_pos hjv, if_neg (by omega), if_neg (by omega)]
    rcases loop_events_shape (loop s i).1 j with h | h | h | h
    · rw [h.2, h0] at h2
      exact absurd h2 (by decide)
    · rw [h.2.2] at h2
      exact absurd h2 (by decide)
    · rw [h0] at h
      exact absurd h.2.1 (by decide)
    · rw [h.1, h0, h2]

/-- Witness of `h_mode_gear_table`: from the initial globals, vert 300 and
horiz 2500 give button 0, and a following pass with horiz 1700 emits
release 0, press 2. -/
theorem h_mode_gear_table_witness :
    (loop startup ⟨2500, 300, LOW, 0, 0⟩).1.cur_mode = modes_t.H_MODE ∧
    (loop startup ⟨2500, 300, LOW, 0, 0⟩).1.cur_button = 0 ∧
    (loop (loop startup ⟨2500, 300, LOW, 0, 0⟩).1 ⟨1700, 300, LOW, 25, 25⟩).2 =
      [Event.release 0, Event.press 2] :=
  ⟨by decide,
   (h_mode_gear_table startup ⟨2500, 300, LOW, 0, 0⟩ (by decide)).1 (by decide) (by decide),
   (h_mode_gear_table startup ⟨2500, 300, LOW, 0, 0⟩ (by decide)).2.2.2.2.2.2.2.2.2.2.2.2
     ⟨1700, 300, LOW, 25, 25⟩ (by decide) (by decide) (by decide) (by decide) (by decide)
     (by decide)⟩

/-! ## Sequential mode, handbrake mode and neutral -/

/-- In a pass classified in `SEQUENTIAL`, the gear handling is one call of
`change_button` chosen by `vert` alone. -/
theorem loop_sequential (s : State) (i : Input)
    (hmode : (loop s i).1.cur_mode = modes_t.SEQUENTIAL) :
    loop s i =
      change_button (if i.vert < 1000 then 7 else if i.vert > 3000 then 8 else -1)
        (mode_change s i) := by
  rw [loop_mode] at hmode
  simp only [loop, handle_gears, hmode, THRESH_UP, THRESH_DOWN, SEQ_UP_BUTTON,
    SEQ_DOWN_BUTTON]
  repeat' split
  all_goals first | rfl | contradiction

/-- In a pass classified in `HANDBRAKE`, the gear handling does nothing when
`vert < 1000` and is otherwise one call of `change_button` chosen by `vert`. -/
theorem loop_handbrake (s : State) (i : Input)
    (hmode : (loop s i).1.cur_mode = modes_t.HANDBRAKE) :
    loop s i =
      if i.vert < 1000 then (mode_change s i, [])
      else change_button (if i.vert > 3000 then 9 else -1) (mode_change s i) := by
  rw [loop_mode] at hmode
  simp only [loop, handle_gears, hmode, THRESH_UP, THRESH_DOWN, HANDBRAKE_BUTTON]
  repeat' split
  all_goals first | rfl | contradiction

/-- The detector does not look at `horiz`. -/
theorem mode_change_horiz (s : State) (i : Input) (h : Int) :
    mode_change s { i with horiz := h } = { mode_change s i with } := rfl

/-- C5: a pass classified in `SEQUENTIAL` ends with button 7 when
`vert < 1000` and with button 8 when `vert > 3000`, whatever `horiz` and the
pin level are; replacing `horiz` by any other value gives the same calls and
the same final state. -/
theorem sequential_ignores_horiz (s : State) (i : Input)
    (hmode : (loop s i).1.cur_mode = modes_t.SEQUENTIAL) :
    (i.vert < 1000 → (loop s i).1.cur_button = 7) ∧
    (i.vert > 3000 → (loop s i).1.cur_button = 8) ∧
    (∀ h : Int, loop s { i with horiz := h } = loop s i) := by
  have key := loop_sequential s i hmode
  refine ⟨?_, ?_, ?_⟩
  · intro hv
    rw [key, if_pos hv, change_button_cur]
  · intro hv
    rw [key, if_neg (by omega), if_pos hv, change_button_cur]
  · intro h
    have hm : (loop s { i with horiz := h }).1.cur_mode = modes_t.SEQUENTIAL := by
      rw [loop_mode] at hmode ⊢
      exact hmode
    rw [key, loop_sequential s { i with horiz := h } hm]
    rfl

/-- Witness of `sequential_ignores_horiz`: a state in `SEQUENTIAL` with the
stick up. -/
theorem sequential_ignores_horiz_witness :
    (loop ⟨LOW, 0, false, -1, modes_t.SEQUENTIAL⟩ ⟨1725, 300, LOW, 0, 0⟩).1.cur_mode =
      modes_t.SEQUENTIAL ∧
    (loop ⟨LOW, 0, false, -1, modes_t.SEQUENTIAL⟩ ⟨1725, 300, LOW, 0, 0⟩).1.cur_button = 7 ∧
    loop ⟨LOW, 0, false, -1, modes_t.SEQUENTIAL⟩ ⟨2540, 300, LOW, 0, 0⟩ =
      loop ⟨LOW, 0, false, -1, modes_t.SEQUENTIAL⟩ ⟨1725, 300, LOW, 0, 0⟩ :=
  ⟨by decide,
   (sequential_ignores_horiz ⟨LOW, 0, false, -1, modes_t.SEQUENTIAL⟩ ⟨1725, 300, LOW, 0, 0⟩
     (by decide)).1 (by decide),
   (sequential_ignores_horiz ⟨LOW, 0, false, -1, modes_t.SEQUENTIAL⟩ ⟨1725, 300, LOW, 0, 0⟩
     (by decide)).2.2 2540⟩

/-- A pass with `vert` between the two thresholds is the call
`change_button(-1)`. -/
theorem loop_neutral (s : State) (i : Input) (h1 : 1000 ≤ i.vert) (h2 : i.vert ≤ 3000) :
    loop s i = change_button (-1) (mode_change s i) := by
  have a : ¬ i.vert < THRESH_UP := by unfold THRESH_UP; omega
  have b : ¬ i.vert > THRESH_DOWN := by unfold THRESH_DOWN; omega
  unfold loop handle_gears
  rw [if_neg a, if_neg b]

/-- C6 (as the code has it): a pass classified in `HANDBRAKE` with
`vert < 1000` leaves `cur_button` as it was before the pass and makes no call
on the gamepad: unlike a neutral `vert`, it does not release a held button.
So it ends with no button exactly when no button was held before the pass. -/
theorem handbrake_up_leaves_button (s : State) (i : Input)
    (hmode : (loop s i).1.cur_mode = modes_t.HANDBRAKE) (hv : i.vert < 1000) :
    (loop s i).1.cur_button = s.cur_button ∧
    (loop s i).2 = [] ∧
    Event.release s.cur_button ∉ (loop s i).2 ∧
    ((loop s i).1.cur_button = -1 ↔ s.cur_button = -1) := by
  have hcur : (loop s i).1.cur_button = s.cur_button := by
    rw [loop_handbrake s i hmode, if_pos hv]
    exact mode_change_cur_button s i
  have hev : (loop s i).2 = [] := by
    rw [loop_handbrake s i hmode, if_pos hv]
  refine ⟨hcur, hev, ?_, ?_⟩
  · rw [hev]
    exact List.not_mem_nil _
  · rw [hcur]

/-- Witness of `handbrake_up_leaves_button`: a state in `HANDBRAKE` holding
button 7, stick up: button 7 is still held and no call is made. -/
theorem handbrake_up_leaves_button_witness :
    (loop ⟨LOW, 0, false, 7, modes_t.HANDBRAKE⟩ ⟨1725, 300, LOW, 0, 0⟩).1.cur_mode =
      modes_t.HANDBRAKE ∧
    (300 : Int) < 1000 ∧
    (loop ⟨LOW, 0, false, 7, modes_t.HANDBRAKE⟩ ⟨1725, 300, LOW, 0, 0⟩).1.cur_button = 7 ∧
    (loop ⟨LOW, 0, false, 7, modes_t.HANDBRAKE⟩ ⟨1725, 300, LOW, 0, 0⟩).2 = [] ∧
    Event.release 7 ∉
      (loop ⟨LOW, 0, false, 7, modes_t.HANDBRAKE⟩ ⟨1725, 300, LOW, 0, 0⟩).2 ∧
    ((loop ⟨LOW, 0, false, 7, modes_t.HANDBRAKE⟩ ⟨1725, 300, LOW, 0, 0⟩).1.cur_button = -1 ↔
      (7 : Int) = -1) :=
  ⟨by decide, by decide,
   handbrake_up_leaves_button ⟨LOW, 0, false, 7, modes_t.HANDBRAKE⟩ ⟨1725, 300, LOW, 0, 0⟩
     (by decide) (by decide)⟩

/-- C6 (as stated) fails: after `handbrake_trace` the globals are in
`HANDBRAKE` with button 9 held; a pass with vert 300 is classified in
`HANDBRAKE`, makes no call and still ends with button 9, whereas a neutral pass
(vert 1850) from the same state ends with no button. -/
theorem handbrake_up_keeps_button :
    (run startup handbrake_trace).1.cur_mode = modes_t.HANDBRAKE ∧
    (run startup handbrake_trace).1.cur_button = 9 ∧
    (loop (run startup handbrake_trace).1 ⟨1725, 300, HIGH, 625, 625⟩).1.cur_mode =
      modes_t.HANDBRAKE ∧
    (300 : Int) < 1000 ∧
    (loop (run startup handbrake_trace).1 ⟨1725, 300, HIGH, 625, 625⟩).2 = [] ∧
    (loop (run startup handbrake_trace).1 ⟨1725, 300, HIGH, 625, 625⟩).1.cur_button = 9 ∧
    (loop (run startup handbrake_trace).1 ⟨1725, 300, HIGH, 625, 625⟩).1.cur_button ≠ -1 ∧
    (loop (run startup handbrake_trace).1 ⟨1725, 1850, HIGH, 625, 625⟩).1.cur_button = -1 := by
  decide

/-- C7: a pass classified in `HANDBRAKE` with `vert > 3000` ends with button
9, and every press emitted by a pass classified in `HANDBRAKE` is a press of
button 9. -/
theorem handbrake_presses_only_nine (s : State) (i : Input)
    (hmode : (loop s i).1.cur_mode = modes_t.HANDBRAKE) :
    (i.vert > 3000 → (loop s i).1.cur_button = 9) ∧
    (∀ b : Int, Event.press b ∈ (loop s i).2 → b = 9) := by
  have key := loop_handbrake s i hmode
  constructor
  · intro hv
    rw [key, if_neg (by omega), if_pos hv, change_button_cur]
  · intro b hb
    rw [key] at hb
    by_cases hup : i.vert < 1000
    · rw [if_pos hup] at hb
      simp at hb
    · rw [if_neg hup, change_button_events] at hb
      by_cases hdown : i.vert > 3000
      · rw [if_pos hdown] at hb
        split at hb
        · simp at hb
        · split at hb <;> simp at hb <;> exact hb
      · rw [if_neg hdown] at hb
        split at hb
        · simp at hb
        · split at hb <;> simp at hb

/-- Witness of `handbrake_presses_only_nine`: a state in `HANDBRAKE` holding
no button, stick pulled down. -/
theorem handbrake_presses_only_nine_witness :
    (loop ⟨LOW, 0, false, -1, modes_t.HANDBRAKE⟩ ⟨1725, 3670, LOW, 0, 0⟩).1.cur_mode =
      modes_t.HANDBRAKE ∧
    (loop ⟨LOW, 0, false, -1, modes_t.HANDBRAKE⟩ ⟨1725, 3670, LOW, 0, 0⟩).1.cur_button = 9 ∧
    (∀ b : Int,
      Event.press b ∈ (loop ⟨LOW, 0, false, -1, modes_t.HANDBRAKE⟩ ⟨1725, 3670, LOW, 0, 0⟩).2 →
      b = 9) :=
  ⟨by decide,
   (handbrake_presses_only_nine ⟨LOW, 0, false, -1, modes_t.HANDBRAKE⟩
     ⟨1725, 3670, LOW, 0, 0⟩ (by decide)).1 (by decide),
   (handbrake_presses_only_nine ⟨LOW, 0, false, -1, modes_t.HANDBRAKE⟩
     ⟨1725, 3670, LOW, 0, 0⟩ (by decide)).2⟩

/-- C8: in every mode, a pass with `1000 ≤ vert ≤ 3000` ends with no button:
it emits the release of the button held before the pass if there was one, and
nothing else; in particular no press. -/
theorem neutral_releases (s : State) (i : Input)
    (h1 : 1000 ≤ i.vert) (h2 : i.vert ≤ 3000) :
    (loop s i).1.cur_button = -1 ∧
    (loop s i).2 = (if s.cur_button ≠ -1 then [Event.release s.cur_button] else []) ∧
    (∀ b : Int, Event.press b ∉ (loop s i).2) := by
  have hev : (loop s i).2 =
      (if s.cur_button ≠ -1 then [Event.release s.cur_button] else []) := by
    rw [loop_neutral s i h1 h2, change_button_events, mode_change_cur_button]
    by_cases ha : s.cur_button = -1
    · simp [ha]
    · have ha2 : ¬ (-1 : Int) = s.cur_button := fun h => ha h.symm
      simp [ha, ha2]
  refine ⟨?_, hev, ?_⟩
  · rw [loop_neutral s i h1 h2, change_button_cur]
  · intro b hb
    rw [hev] at hb
    split at hb <;> simp at hb

/-- Witness of `neutral_releases`: both boundaries, from a state in
`SEQUENTIAL` holding button 7. -/
theorem neutral_releases_witness :
    ((1000 : Int) ≤ 1000 ∧ (1000 : Int) ≤ 3000) ∧
    ((loop ⟨LOW, 0, false, 7, modes_t.SEQUENTIAL⟩ ⟨1725, 1000, LOW, 0, 0⟩).1.cur_button = -1 ∧
     (loop ⟨LOW, 0, false, 7, modes_t.SEQUENTIAL⟩ ⟨1725, 1000, LOW, 0, 0⟩).2 =
       (if (7 : Int) ≠ -1 then [Event.release 7] else []) ∧
     (∀ b : Int,
       Event.press b ∉ (loop ⟨LOW, 0, false, 7, modes_t.SEQUENTIAL⟩ ⟨1725, 1000, LOW, 0, 0⟩).2)) :=
  ⟨by decide,
   neutral_releases ⟨LOW, 0, false, 7, modes_t.SEQUENTIAL⟩ ⟨1725, 1000, LOW, 0, 0⟩
     (by decide) (by decide)⟩

/-! ## The double press detector -/

theorem ulong_sub_self (a : Nat) : ulong_sub a a = 0 := by
  unfold ulong_sub ULONG_MOD
  omega

/-- Elapsed time between two readings of the clock taken at `t` and at
`n ≥ t`, less than one wrap of the counter apart. -/
theorem ulong_sub_elapsed (t n : Nat) (h1 : t ≤ n) (h2 : n < t + 4294967296) :
    ulong_sub (n % ULONG_MOD) (t % ULONG_MOD) = n - t := by
  unfold ulong_sub ULONG_MOD
  omega

/-- The gear handling leaves the detector's variables alone. -/
theorem handle_gears_frame (s : State) (i : Input) :
    (handle_gears s i).1.waiting_for_second_press = s.waiting_for_second_press ∧
    (handle_gears s i).1.last_press_time = s.last_press_time ∧
    (handle_gears s i).1.last_button_state = s.last_button_state := by
  rcases handle_gears_shape s i with h | ⟨c, h⟩
  · rw [h]
    exact ⟨rfl, rfl, rfl⟩
  · rw [h]
    exact (change_button_frame c s).2

/-- A pass with the pin at `LOW`: mode and timestamp stay, and the detector
is armed afterwards exactly when it was armed and its window is still open at
the expiry test. -/
theorem loop_low (s : State) (i : Input) (hb : i.button = LOW) :
    (loop s i).1.cur_mode = s.cur_mode ∧
    (loop s i).1.last_press_time = s.last_press_time ∧
    (loop s i).1.last_button_state = LOW ∧
    ((loop s i).1.waiting_for_second_press = true ↔
      (s.waiting_for_second_press = true ∧
        ulong_sub (millis2 i) s.last_press_time ≤ 400)) := by
  obtain ⟨hw, ht, hl⟩ := handle_gears_frame (mode_change s i) i
  rw [loop_mode]
  unfold loop
  rw [hw, ht, hl]
  have hb2 : i.button = false := hb
  simp only [mode_change, hb2, HIGH, LOW, DOUBLE_PRESS_WINDOW]
  by_cases hwait : s.waiting_for_second_press = true
  · by_cases hgt : 400 < ulong_sub (millis2 i) s.last_press_time
    · have hle : ¬ ulong_sub (millis2 i) s.last_press_time ≤ 400 := by omega
      simp [hwait, hgt, hle]
    · have hle : ulong_sub (millis2 i) s.last_press_time ≤ 400 := by omega
      simp [hwait, hgt, hle]
  · simp [hwait]

/-- A rising edge on an armed detector: the mode advances exactly when the
window is open at the window test, the timestamp stays, and the detector stays
armed exactly when the window is still open at the expiry test. -/
theorem loop_rising_armed (s : State) (i : Input) (hb : i.button = HIGH)
    (hl : s.last_button_state = LOW) (hw : s.waiting_for_second_press = true) :
    (loop s i).1.cur_mode =
      (if ulong_sub (millis i) s.last_press_time ≤ 400 then next_mode s.cur_mode
       else s.cur_mode) ∧
    (loop s i).1.last_press_time = s.last_press_time ∧
    (loop s i).1.last_button_state = HIGH ∧
    ((loop s i).1.waiting_for_second_press = true ↔
      ulong_sub (millis2 i) s.last_press_time ≤ 400) := by
  obtain ⟨hw2, ht, hl2⟩ := handle_gears_frame (mode_change s i) i
  rw [loop_mode]
  unfold loop
  rw [hw2, ht, hl2]
  have hb2 : i.button = true := hb
  have hl3 : s.last_button_state = false := hl
  simp only [mode_change, hb2, hl3, hw, HIGH, LOW, DOUBLE_PRESS_WINDOW]
  by_cases hgt : 400 < ulong_sub (millis2 i) s.last_press_time
  · have hle : ¬ ulong_sub (millis2 i) s.last_press_time ≤ 400 := by omega
    by_cases h1 : ulong_sub (millis i) s.last_press_time ≤ 400 <;>
      simp [hgt, hle, hw, h1]
  · have hle : ulong_sub (millis2 i) s.last_press_time ≤ 400 := by omega
    by_cases h1 : ulong_sub (millis i) s.last_press_time ≤ 400 <;>
      simp [hgt, hle, hw, h1]

/-- A rising edge on a disarmed detector: the mode stays and the timestamp
becomes the time of the edge; the detector ends armed exactly when the expiry
test of the same pass comes at most 400 ms after that. -/
theorem loop_rising_disarmed (s : State) (i : Input) (hb : i.button = HIGH)
    (hl : s.last_button_state = LOW) (hw : s.waiting_for_second_press = false) :
    (loop s i).1.cur_mode = s.cur_mode ∧
    (loop s i).1.last_press_time = millis i ∧
    (loop s i).1.last_button_state = HIGH ∧
    ((loop s i).1.waiting_for_second_press = true ↔
      ulong_sub (millis2 i) (millis i) ≤ 400) := by
  obtain ⟨hw2, ht, hl2⟩ := handle_gears_frame (mode_change s i) i
  rw [loop_mode]
  unfold loop
  rw [hw2, ht, hl2]
  have hb2 : i.button = true := hb
  have hl3 : s.last_button_state = false := hl
  simp only [mode_change, hb2, hl3, hw, HIGH, LOW, DOUBLE_PRESS_WINDOW]
  by_cases hgt : 400 < ulong_sub (millis2 i) (millis i)
  · have hle : ¬ ulong_sub (millis2 i) (millis i) ≤ 400 := by omega
    simp [hgt, hle]
  · have hle : ulong_sub (millis2 i) (millis i) ≤ 400 := by omega
    simp [hgt, hle]

/-- A pass without a rising edge leaves the mode alone. -/
theorem loop_no_edge_mode (s : State) (i : Input)
    (h : ¬ (i.button ≠ s.last_button_state ∧ i.button = HIGH)) :
    (loop s i).1.cur_mode = s.cur_mode := by
  rw [loop_mode]
  simp only [mode_change, if_neg h]
  split <;> rfl

theorem run_append (s : State) (xs ys : List Input) :
    (run s (xs ++ ys)).1 = (run (run s xs).1 ys).1 := by
  induction xs generalizing s with
  | nil => rfl
  | cons x xs ih => exact ih (loop s x).1

/-- Any number of passes with the pin at `LOW`: mode and timestamp stay, and
the detector is armed afterwards exactly when it was armed and the expiry test
of every pass fell inside the window. -/
theorem run_low (mid : List Input) : ∀ s : State,
    (∀ x ∈ mid, x.button = LOW) →
    (run s mid).1.cur_mode = s.cur_mode ∧
    (run s mid).1.last_press_time = s.last_press_time ∧
    (mid ≠ [] → (run s mid).1.last_button_state = LOW) ∧
    ((run s mid).1.waiting_for_second_press = true ↔
      (s.waiting_for_second_press = true ∧
        ∀ x ∈ mid, ulong_sub (millis2 x) s.last_press_time ≤ 400)) := by
  induction mid with
  | nil =>
    intro s _
    simp [run]
  | cons x xs ih =>
    intro s hlow
    obtain ⟨hm, ht, hl, hw⟩ := loop_low s x (hlow x (List.mem_cons_self x xs))
    obtain ⟨ihm, iht, ihl, ihw⟩ :=
      ih (loop s x).1 (fun y hy => hlow y (List.mem_cons_of_mem x hy))
    show (run (loop s x).1 xs).1.cur_mode = s.cur_mode ∧
      (run (loop s x).1 xs).1.last_press_time = s.last_press_time ∧
      (x :: xs ≠ [] → (run (loop s x).1 xs).1.last_button_state = LOW) ∧
      ((run (loop s x).1 xs).1.waiting_for_second_press = true ↔
        (s.waiting_for_second_press = true ∧
          ∀ y ∈ x :: xs, ulong_sub (millis2 y) s.last_press_time ≤ 400))
    refine ⟨ihm.trans hm, iht.trans ht, fun _ => ?_, ?_⟩
    · by_cases hxs : xs = []
      · subst hxs
        exact hl
      · exact ihl hxs
    · rw [ihw, hw, ht]
      simp only [List.mem_cons, forall_eq_or_imp]
      tauto

/-- C9: from a state with the detector disarmed and `last_button_state` at
`LOW`, run a pass with the pin at `HIGH` at time `t`, then one or more passes
with the pin at `LOW` at times between `t` and `t + d`, then a pass with the
pin at `HIGH` at time `t + d` (the span `d` being shorter than one wrap of the
32 bit clock).  If `d ≤ 400` the final mode is `next_mode` of the starting
mode; if `d > 400` it is the starting mode.  The time of a pass with a rising
edge is the clock read of its edge handling, the time of a pass at `LOW` the
clock read of its expiry test (the only one it makes); the expiry test of the
first pass falls between `t` and `t + d` as well.  The axes are arbitrary, and
the times of the `LOW` passes need not even be ordered. -/
theorem double_press_window (s : State) (first last : Input) (mid : List Input)
    (t d : Nat)
    (hw : s.waiting_for_second_press = false) (hl : s.last_button_state = LOW)
    (hf : first.button = HIGH) (hft : first.now = t)
    (hft2 : t ≤ first.now2 ∧ first.now2 ≤ t + d)
    (hmid : mid ≠ [])
    (hlow : ∀ x ∈ mid, x.button = LOW ∧ t ≤ x.now2 ∧ x.now2 ≤ t + d)
    (hlast : last.button = HIGH) (hlt : last.now = t + d)
    (hd : d < 4294967296) :
    (d ≤ 400 → (run s (first :: (mid ++ [last]))).1.cur_mode = next_mode s.cur_mode) ∧
    (400 < d → (run s (first :: (mid ++ [last]))).1.cur_mode = s.cur_mode) := by
  obtain ⟨h1m, h1t, _, h1w⟩ := loop_rising_disarmed s first hf hl hw
  obtain ⟨h2m, h2t, h2l, h2w⟩ := run_low mid (loop s first).1 (fun x hx => (hlow x hx).1)
  have hfinal : (run s (first :: (mid ++ [last]))).1 =
      (loop (run (loop s first).1 mid).1 last).1 := by
    show (run (loop s first).1 (mid ++ [last])).1 = _
    rw [run_append]
    rfl
  have harm : (run (loop s first).1 mid).1.last_press_time = t % ULONG_MOD := by
    rw [h2t, h1t, millis, hft]
  have hel : ulong_sub (millis last) (run (loop s first).1 mid).1.last_press_time = d := by
    rw [harm, millis, hlt, ulong_sub_elapsed t (t + d) (by omega) (by omega)]
    omega
  rw [hfinal]
  constructor
  · intro hle
    have harmed : (run (loop s first).1 mid).1.waiting_for_second_press = true := by
      rw [h2w]
      constructor
      · rw [h1w, millis2, millis, hft,
          ulong_sub_elapsed t first.now2 hft2.1 (by omega)]
        omega
      · intro x hx
        obtain ⟨_, ha, hb⟩ := hlow x hx
        rw [h1t, millis2, millis, hft, ulong_sub_elapsed t x.now2 ha (by omega)]
        omega
    obtain ⟨hm, _⟩ := loop_rising_armed _ last hlast (h2l hmid) harmed
    rw [hm, hel, if_pos hle, h2m, h1m]
  · intro hgt
    by_cases harmed : (run (loop s first).1 mid).1.waiting_for_second_press = true
    · obtain ⟨hm, _⟩ := loop_rising_armed _ last hlast (h2l hmid) harmed
      rw [hm, hel, if_neg (by omega), h2m, h1m]
    · have hdis : (run (loop s first).1 mid).1.waiting_for_second_press = false := by
        simpa using harmed
      obtain ⟨hm, _⟩ := loop_rising_disarmed _ last hlast (h2l hmid) hdis
      rw [hm, h2m, h1m]

/-- Witness of `double_press_window`: from the initial globals, edges at 0 ms
and 400 ms with one `LOW` pass at 200 ms in between advance the mode to
`SEQUENTIAL`; with the second edge at 401 ms the mode stays `H_MODE`. -/
theorem double_press_window_witness :
    (startup.waiting_for_second_press = false ∧ startup.last_button_state = LOW) ∧
    (run startup (⟨1725, 1850, HIGH, 0, 1⟩ ::
      ([⟨1725, 1850, LOW, 200, 200⟩] ++ [⟨1725, 1850, HIGH, 0 + 400, 401⟩]))).1.cur_mode =
      next_mode startup.cur_mode ∧
    (run startup (⟨1725, 1850, HIGH, 0, 1⟩ ::
      ([⟨1725, 1850, LOW, 200, 200⟩] ++ [⟨1725, 1850, HIGH, 0 + 401, 401⟩]))).1.cur_mode =
      startup.cur_mode :=
  ⟨⟨rfl, rfl⟩,
   (double_press_window startup ⟨1725, 1850, HIGH, 0, 1⟩ ⟨1725, 1850, HIGH, 0 + 400, 401⟩
     [⟨1725, 1850, LOW, 200, 200⟩] 0 400 rfl rfl rfl rfl (by decide) (by decide) (by decide)
     rfl rfl (by decide)).1 (by decide),
   (double_press_window startup ⟨1725, 1850, HIGH, 0, 1⟩ ⟨1725, 1850, HIGH, 0 + 401, 401⟩
     [⟨1725, 1850, LOW, 200, 200⟩] 0 401 rfl rfl rfl rfl (by decide) (by decide) (by decide)
     rfl rfl (by decide)).2 (by decide)⟩

/-! ## What a mode advance does to the detector -/

/-- C10 (as the code has it): a pass in which the mode changed advanced it by
one step and left the timestamp unchanged; the advance itself does not disarm
the detector, which ends the pass armed exactly when the window is still open
at the expiry test of that pass.  After it, following one or more `LOW`
passes, a further rising edge inside the window advances the mode again and
keeps the timestamp when no expiry test on the way fell outside the window; it
leaves the mode alone and takes its own time as the new timestamp when one of
them did (which disarmed the detector). -/
theorem advance_leaves_disarming_to_expiry (s : State) (i : Input)
    (hadv : (loop s i).1.cur_mode ≠ s.cur_mode) :
    (loop s i).1.cur_mode = next_mode s.cur_mode ∧
    (loop s i).1.last_press_time = s.last_press_time ∧
    ((loop s i).1.waiting_for_second_press = true ↔
      ulong_sub (millis2 i) s.last_press_time ≤ 400) ∧
    (∀ (mid : List Input) (j : Input), mid ≠ [] → (∀ x ∈ mid, x.button = LOW) →
      j.button = HIGH →
      ((ulong_sub (millis2 i) s.last_press_time ≤ 400 ∧
          ∀ x ∈ mid, ulong_sub (millis2 x) s.last_press_time ≤ 400) →
        ulong_sub (millis j) s.last_press_time ≤ 400 →
        (run (loop s i).1 (mid ++ [j])).1.cur_mode = next_mode (next_mode s.cur_mode) ∧
        (run (loop s i).1 (mid ++ [j])).1.last_press_time = s.last_press_time ∧
        ((run (loop s i).1 (mid ++ [j])).1.waiting_for_second_press = true ↔
          ulong_sub (millis2 j) s.last_press_time ≤ 400)) ∧
      ((400 < ulong_sub (millis2 i) s.last_press_time ∨
          ∃ x ∈ mid, 400 < ulong_sub (millis2 x) s.last_press_time) →
        (run (loop s i).1 (mid ++ [j])).1.cur_mode = next_mode s.cur_mode ∧
        (run (loop s i).1 (mid ++ [j])).1.last_press_time = millis j ∧
        ((run (loop s i).1 (mid ++ [j])).1.waiting_for_second_press = true ↔
          ulong_sub (millis2 j) (millis j) ≤ 400))) := by
  have hedge : i.button ≠ s.last_button_state ∧ i.button = HIGH := by
    by_contra h
    exact hadv (loop_no_edge_mode s i h)
  have hb : i.button = HIGH := hedge.2
  have hl : s.last_button_state = LOW := by
    have h := hedge.1
    rw [hb] at h
    cases hs : s.last_button_state
    · rfl
    · rw [hs] at h
      exact absurd rfl h
  have hw : s.waiting_for_second_press = true := by
    by_contra h
    have hdis : s.waiting_for_second_press = false := by simpa using h
    exact hadv (loop_rising_disarmed s i hb hl hdis).1
  obtain ⟨hm, ht, _, hw2⟩ := loop_rising_armed s i hb hl hw
  have hel : ulong_sub (millis i) s.last_press_time ≤ 400 := by
    by_contra h
    rw [if_neg h] at hm
    exact hadv hm
  rw [if_pos hel] at hm
  refine ⟨hm, ht, hw2, ?_⟩
  intro mid j hmid hlow hj
  obtain ⟨h2m, h2t, h2l, h2w⟩ := run_low mid (loop s i).1 hlow
  have hfinal : (run (loop s i).1 (mid ++ [j])).1 =
      (loop (run (loop s i).1 mid).1 j).1 := by
    rw [run_append]
    rfl
  rw [hfinal]
  constructor
  · intro hin hjin
    have harmed : (run (loop s i).1 mid).1.waiting_for_second_press = true := by
      rw [h2w, ht]
      exact ⟨hw2.2 hin.1, hin.2⟩
    obtain ⟨h3m, h3t, _, h3w⟩ := loop_rising_armed _ j hj (h2l hmid) harmed
    rw [h2t, ht] at h3m h3w h3t
    rw [if_pos hjin, h2m, hm] at h3m
    exact ⟨h3m, h3t, h3w⟩
  · intro hout
    have hdis : (run (loop s i).1 mid).1.waiting_for_second_press = false := by
      cases hc : (run (loop s i).1 mid).1.waiting_for_second_press
      · rfl
      · obtain ⟨hi, hx⟩ := h2w.1 hc
        rcases hout with hgt | ⟨x, hxm, hgt⟩
        · have h := hw2.1 hi
          omega
        · have h := hx x hxm
          rw [ht] at h
          omega
    obtain ⟨h3m, h3t, _, h3w⟩ := loop_rising_disarmed _ j hj (h2l hmid) hdis
    rw [h2m, hm] at h3m
    exact ⟨h3m, h3t, h3w⟩

/-- Witness of `advance_leaves_disarming_to_expiry`: with the detector armed
at 0 ms, a rising edge at 50 ms advances `H_MODE` to `SEQUENTIAL` and leaves
the detector armed at 0 ms, and a further rising edge at 100 ms advances to
`HANDBRAKE`; a rising edge whose window test reads 400 ms and whose expiry
test reads 401 ms advances the mode too, but ends disarmed. -/
theorem advance_leaves_disarming_to_expiry_witness :
    (loop ⟨LOW, 0, true, -1, modes_t.H_MODE⟩ ⟨1725, 1850, HIGH, 50, 50⟩).1.cur_mode ≠
      modes_t.H_MODE ∧
    (loop ⟨LOW, 0, true, -1, modes_t.H_MODE⟩
      ⟨1725, 1850, HIGH, 50, 50⟩).1.waiting_for_second_press = true ∧
    (run (loop ⟨LOW, 0, true, -1, modes_t.H_MODE⟩ ⟨1725, 1850, HIGH, 50, 50⟩).1
      ([⟨1725, 1850, LOW, 75, 75⟩] ++ [⟨1725, 1850, HIGH, 100, 100⟩])).1.cur_mode =
      next_mode (next_mode modes_t.H_MODE) ∧
    (loop ⟨LOW, 0, true, -1, modes_t.H_MODE⟩ ⟨1725, 1850, HIGH, 400, 401⟩).1.cur_mode =
      next_mode modes_t.H_MODE ∧
    ¬ (loop ⟨LOW, 0, true, -1, modes_t.H_MODE⟩
      ⟨1725, 1850, HIGH, 400, 401⟩).1.waiting_for_second_press = true :=
  ⟨by decide,
   (advance_leaves_disarming_to_expiry ⟨LOW, 0, true, -1, modes_t.H_MODE⟩
     ⟨1725, 1850, HIGH, 50, 50⟩ (by decide)).2.2.1.2 (by decide),
   (((advance_leaves_disarming_to_expiry ⟨LOW, 0, true, -1, modes_t.H_MODE⟩
     ⟨1725, 1850, HIGH, 50, 50⟩ (by decide)).2.2.2
     [⟨1725, 1850, LOW, 75, 75⟩] ⟨1725, 1850, HIGH, 100, 100⟩ (by decide) (by decide) rfl).1
     (by decide) (by decide)).1,
   (advance_leaves_disarming_to_expiry ⟨LOW, 0, true, -1, modes_t.H_MODE⟩
     ⟨1725, 1850, HIGH, 400, 401⟩ (by decide)).1,
   fun h => absurd
     ((advance_leaves_disarming_to_expiry ⟨LOW, 0, true, -1, modes_t.H_MODE⟩
       ⟨1725, 1850, HIGH, 400, 401⟩ (by decide)).2.2.1.1 h) (by decide)⟩

/-- C10 (as stated) fails: from the initial globals, rising edges at 0 ms and
50 ms advance the mode to `SEQUENTIAL`, and at the end of that pass the
detector is still armed (armed at 0 ms); a third rising edge at 100 ms
advances the mode again, to `HANDBRAKE`, and the timestamp is still 0, not
100. -/
theorem advance_does_not_disarm :
    (run startup [⟨1725, 1850, HIGH, 0, 0⟩, ⟨1725, 1850, LOW, 25, 25⟩]).1.cur_mode =
      modes_t.H_MODE ∧
    (run startup [⟨1725, 1850, HIGH, 0, 0⟩, ⟨1725, 1850, LOW, 25, 25⟩,
      ⟨1725, 1850, HIGH, 50, 50⟩]).1.cur_mode = modes_t.SEQUENTIAL ∧
    (run startup [⟨1725, 1850, HIGH, 0, 0⟩, ⟨1725, 1850, LOW, 25, 25⟩,
      ⟨1725, 1850, HIGH, 50, 50⟩]).1.waiting_for_second_press = true ∧
    (run startup [⟨1725, 1850, HIGH, 0, 0⟩, ⟨1725, 1850, LOW, 25, 25⟩,
      ⟨1725, 1850, HIGH, 50, 50⟩, ⟨1725, 1850, LOW, 75, 75⟩]).1.cur_mode = modes_t.SEQUENTIAL ∧
    (run startup [⟨1725, 1850, HIGH, 0, 0⟩, ⟨1725, 1850, LOW, 25, 25⟩,
      ⟨1725, 1850, HIGH, 50, 50⟩, ⟨1725, 1850, LOW, 75, 75⟩,
      ⟨1725, 1850, HIGH, 100, 100⟩]).1.cur_mode = modes_t.HANDBRAKE ∧
    (run startup [⟨1725, 1850, HIGH, 0, 0⟩, ⟨1725, 1850, LOW, 25, 25⟩,
      ⟨1725, 1850, HIGH, 50, 50⟩, ⟨1725, 1850, LOW, 75, 75⟩,
      ⟨1725, 1850, HIGH, 100, 100⟩]).1.last_press_time = 0 := by
  decide

/-! ## Cycling through the modes -/

/-- C11: `next_mode` maps `H_MODE` to `SEQUENTIAL`, `SEQUENTIAL` to
`HANDBRAKE` and `HANDBRAKE` to `H_MODE`; applied three times it returns the
mode it started from, and it never returns its argument. -/
theorem next_mode_cycles :
    next_mode modes_t.H_MODE = modes_t.SEQUENTIAL ∧
    next_mode modes_t.SEQUENTIAL = modes_t.HANDBRAKE ∧
    next_mode modes_t.HANDBRAKE = modes_t.H_MODE ∧
    (∀ m : modes_t, next_mode (next_mode (next_mode m)) = m) ∧
    (∀ m : modes_t, next_mode m ≠ m) := by
  refine ⟨rfl, rfl, rfl, ?_, ?_⟩
  · intro m
    cases m <;> rfl
  · intro m
    cases m <;> decide

/-! ## Frame properties of one pass -/

/-- The detector's variables after a pass are those left by the first half
of `loop`. -/
theorem loop_detector (s : State) (i : Input) :
    (loop s i).1.cur_mode = (mode_change s i).cur_mode ∧
    (loop s i).1.waiting_for_second_press = (mode_change s i).waiting_for_second_press ∧
    (loop s i).1.last_press_time = (mode_change s i).last_press_time ∧
    (loop s i).1.last_button_state = (mode_change s i).last_button_state :=
  ⟨loop_mode s i, handle_gears_frame (mode_change s i) i⟩

/-- The expiry test of `loop` leaves the flag set only with the window open. -/
theorem expiry_open (s1 : State) (n : Nat) :
    (if s1.waiting_for_second_press = true ∧
        ulong_sub n s1.last_press_time > DOUBLE_PRESS_WINDOW then
      { s1 with waiting_for_second_press := false } else s1).waiting_for_second_press
      = true →
    ulong_sub n
      (if s1.waiting_for_second_press = true ∧
          ulong_sub n s1.last_press_time > DOUBLE_PRESS_WINDOW then
        { s1 with waiting_for_second_press := false } else s1).last_press_time ≤ 400 := by
  split
  · intro h
    exact absurd h (by simp)
  · next hc =>
    intro h
    by_contra hgt
    exact hc ⟨h, by unfold DOUBLE_PRESS_WINDOW; omega⟩

/-- The detector ends armed only with its window open at the expiry test. -/
theorem mode_change_armed_open (s : State) (i : Input)
    (h : (mode_change s i).waiting_for_second_press = true) :
    ulong_sub (millis2 i) (mode_change s i).last_press_time ≤ 400 :=
  expiry_open _ (millis2 i) h

/-- When the expiry test reads the clock `lag` milliseconds after the edge
handling and the elapsed time does not wrap in between, the elapsed time at
the expiry test is the one at the edge handling plus `lag`. -/
theorem ulong_sub_lag (i : Input) (t lag : Nat) (h2 : i.now2 = i.now + lag)
    (hwrap : ulong_sub (millis i) t + lag < 4294967296) :
    ulong_sub (millis2 i) t = ulong_sub (millis i) t + lag := by
  unfold ulong_sub millis millis2 ULONG_MOD at *
  rw [h2]
  omega

/-- Without a rising edge the detector keeps mode and timestamp and cannot
become armed. -/
theorem mode_change_no_edge (s : State) (i : Input)
    (h : ¬ (i.button ≠ s.last_button_state ∧ i.button = HIGH)) :
    (mode_change s i).cur_mode = s.cur_mode ∧
    (mode_change s i).last_press_time = s.last_press_time ∧
    ((mode_change s i).waiting_for_second_press = true →
      s.waiting_for_second_press = true) := by
  simp only [mode_change, if_neg h]
  split
  · exact ⟨rfl, rfl, fun h => absurd h (by simp)⟩
  · exact ⟨rfl, rfl, fun h => h⟩

/-- The mode after the detector is the old mode or its successor. -/
theorem mode_change_mode (s : State) (i : Input) :
    (mode_change s i).cur_mode = s.cur_mode ∨
    (mode_change s i).cur_mode = next_mode s.cur_mode := by
  simp only [mode_change]
  repeat' split
  all_goals first | exact Or.inl rfl | exact Or.inr rfl

/-- C16: a pass classified in `HANDBRAKE` with `vert < 1000` emits no call
and leaves `cur_button` exactly as it was before the pass, whatever button was
held. -/
theorem handbrake_up_no_change (s : State) (i : Input)
    (hmode : (loop s i).1.cur_mode = modes_t.HANDBRAKE) (hv : i.vert < 1000) :
    (loop s i).2 = [] ∧ (loop s i).1.cur_button = s.cur_button := by
  rw [loop_handbrake s i hmode, if_pos hv]
  exact ⟨rfl, mode_change_cur_button s i⟩

/-- Witness of `handbrake_up_no_change`: in `HANDBRAKE` with button 9 held,
the stick up. -/
theorem handbrake_up_no_change_witness :
    (loop ⟨LOW, 0, false, 9, modes_t.HANDBRAKE⟩ ⟨1725, 300, LOW, 0, 0⟩).1.cur_mode =
      modes_t.HANDBRAKE ∧
    (300 : Int) < 1000 ∧
    (loop ⟨LOW, 0, false, 9, modes_t.HANDBRAKE⟩ ⟨1725, 300, LOW, 0, 0⟩).2 = [] ∧
    (loop ⟨LOW, 0, false, 9, modes_t.HANDBRAKE⟩ ⟨1725, 300, LOW, 0, 0⟩).1.cur_button = 9 :=
  ⟨by decide, by decide,
   handbrake_up_no_change ⟨LOW, 0, false, 9, modes_t.HANDBRAKE⟩ ⟨1725, 300, LOW, 0, 0⟩
     (by decide) (by decide)⟩

/-- C17: at the end of every pass the detector is armed only if its window
is still open, the elapsed time being computed modulo `2^32` from the clock
reading of the expiry test of the pass; put the other way round, a detector
whose window has expired is disarmed at the end of the pass.  The same holds
for the clock reading of the edge handling, taken `lag` milliseconds earlier
(`lag = 0` when both calls return the same value), as long as the elapsed
time does not wrap between the two readings. -/
theorem armed_only_inside_window (s : State) (i : Input) :
    ((loop s i).1.waiting_for_second_press = true →
      ulong_sub (millis2 i) (loop s i).1.last_press_time ≤ 400) ∧
    (400 < ulong_sub (millis2 i) (loop s i).1.last_press_time →
      (loop s i).1.waiting_for_second_press = false) ∧
    (∀ lag : Nat, i.now2 = i.now + lag →
      ulong_sub (millis i) (loop s i).1.last_press_time + lag < 4294967296 →
      ((loop s i).1.waiting_for_second_press = true →
        ulong_sub (millis i) (loop s i).1.last_press_time ≤ 400) ∧
      (400 < ulong_sub (millis i) (loop s i).1.last_press_time →
        (loop s i).1.waiting_for_second_press = false)) := by
  obtain ⟨_, hw, ht, _⟩ := loop_detector s i
  have key : (loop s i).1.waiting_for_second_press = true →
      ulong_sub (millis2 i) (loop s i).1.last_press_time ≤ 400 := by
    rw [hw, ht]
    exact mode_change_armed_open s i
  have key2 : ∀ n : Nat, (n ≤ 400 → False) →
      ((loop s i).1.waiting_for_second_press = true → n ≤ 400) →
      (loop s i).1.waiting_for_second_press = false := by
    intro n hn h
    cases hc : (loop s i).1.waiting_for_second_press
    · rfl
    · exact absurd (h hc) hn
  refine ⟨key, fun hgt => key2 _ (by omega) key, ?_⟩
  intro lag hlag hwrap
  have heq := ulong_sub_lag i (loop s i).1.last_press_time lag hlag hwrap
  have key3 : (loop s i).1.waiting_for_second_press = true →
      ulong_sub (millis i) (loop s i).1.last_press_time ≤ 400 := by
    intro h
    have := key h
    omega
  exact ⟨key3, fun hgt => key2 _ (by omega) key3⟩

/-- Witness of `armed_only_inside_window`: a first rising edge from the
initial globals, with the expiry test one millisecond after the arming, leaves
the detector armed, inside its window at both readings. -/
theorem armed_only_inside_window_witness :
    (loop startup ⟨1725, 1850, HIGH, 10, 11⟩).1.waiting_for_second_press = true ∧
    ulong_sub (millis2 ⟨1725, 1850, HIGH, 10, 11⟩)
      (loop startup ⟨1725, 1850, HIGH, 10, 11⟩).1.last_press_time ≤ 400 ∧
    ulong_sub (millis ⟨1725, 1850, HIGH, 10, 11⟩)
      (loop startup ⟨1725, 1850, HIGH, 10, 11⟩).1.last_press_time ≤ 400 :=
  ⟨by decide,
   (armed_only_inside_window startup ⟨1725, 1850, HIGH, 10, 11⟩).1 (by decide),
   ((armed_only_inside_window startup ⟨1725, 1850, HIGH, 10, 11⟩).2.2 1 rfl
     (by decide)).1 (by decide)⟩

/-- C18: in a pass whose pin reads `LOW` or the same level as in the pass
before, the mode and the timestamp stay and a disarmed detector stays
disarmed; in every pass the resulting mode is the prior mode or `next_mode`
of it, and it does not depend on `horiz` and `vert`. -/
theorem mode_changes_only_on_rising_edge (s : State) (i : Input) :
    ((i.button = LOW ∨ i.button = s.last_button_state) →
      (loop s i).1.cur_mode = s.cur_mode ∧
      (loop s i).1.last_press_time = s.last_press_time ∧
      (s.waiting_for_second_press = false →
        (loop s i).1.waiting_for_second_press = false)) ∧
    ((loop s i).1.cur_mode = s.cur_mode ∨
      (loop s i).1.cur_mode = next_mode s.cur_mode) ∧
    (∀ h v : Int,
      (loop s { i with horiz := h, vert := v }).1.cur_mode = (loop s i).1.cur_mode) := by
  obtain ⟨hm, hw, ht, _⟩ := loop_detector s i
  refine ⟨?_, ?_, ?_⟩
  · intro hno
    have hedge : ¬ (i.button ≠ s.last_button_state ∧ i.button = HIGH) := by
      rintro ⟨h1, h2⟩
      rcases hno with h | h
      · rw [h2] at h
        exact absurd h (by decide)
      · exact h1 h
    obtain ⟨h1, h2, h3⟩ := mode_change_no_edge s i hedge
    rw [hm, hw, ht]
    refine ⟨h1, h2, fun hdis => ?_⟩
    cases hc : (mode_change s i).waiting_for_second_press
    · rfl
    · rw [h3 hc] at hdis
      exact absurd hdis (by decide)
  · rw [hm]
    exact mode_change_mode s i
  · intro h v
    rw [loop_mode, loop_mode]
    rfl

/-- Witness of `mode_changes_only_on_rising_edge`: a pass with the pin at
`LOW` on a state in `SEQUENTIAL`. -/
theorem mode_changes_only_on_rising_edge_witness :
    (loop ⟨HIGH, 0, false, -1, modes_t.SEQUENTIAL⟩ ⟨1725, 1850, LOW, 10, 10⟩).1.cur_mode =
      modes_t.SEQUENTIAL ∧
    (loop ⟨HIGH, 0, false, -1, modes_t.SEQUENTIAL⟩
      ⟨1725, 1850, LOW, 10, 10⟩).1.waiting_for_second_press = false :=
  ⟨((mode_changes_only_on_rising_edge ⟨HIGH, 0, false, -1, modes_t.SEQUENTIAL⟩
      ⟨1725, 1850, LOW, 10, 10⟩).1 (Or.inl rfl)).1,
   ((mode_changes_only_on_rising_edge ⟨HIGH, 0, false, -1, modes_t.SEQUENTIAL⟩
      ⟨1725, 1850, LOW, 10, 10⟩).1 (Or.inl rfl)).2.2 rfl⟩

/-! ## Repeating an input -/

/-- The classification of the axes depends on the state only through the
mode: on two states in the same mode either no call is made, or the same
`change_button c` is. -/
theorem handle_gears_classify (s s2 : State) (i : Input)
    (h2 : s2.cur_mode = s.cur_mode) :
    (handle_gears s i = (s, []) ∧ handle_gears s2 i = (s2, [])) ∨
    (∃ c : Int, handle_gears s i = change_button c s ∧
      handle_gears s2 i = change_button c s2) := by
  unfold handle_gears
  rw [h2]
  repeat' split
  all_goals first
    | exact Or.inl ⟨rfl, rfl⟩
    | exact Or.inr ⟨_, rfl, rfl⟩

/-- The detector is at rest on a state that already has the level of the pin
recorded and whose window, if armed, is open at the expiry test. -/
theorem mode_change_fixed (s : State) (i : Input)
    (hl : s.last_button_state = i.button)
    (hopen : s.waiting_for_second_press = true →
      ulong_sub (millis2 i) s.last_press_time ≤ 400) :
    mode_change s i = s := by
  have hedge : ¬ (i.button ≠ s.last_button_state ∧ i.button = HIGH) :=
    fun h => h.1 hl.symm
  have hexp : ¬ (s.waiting_for_second_press = true ∧
      ulong_sub (millis2 i) s.last_press_time > DOUBLE_PRESS_WINDOW) := by
    rintro ⟨h1, h2⟩
    have := hopen h1
    unfold DOUBLE_PRESS_WINDOW at h2
    omega
  simp only [mode_change, if_neg hedge, if_neg hexp]
  rw [← hl]

/-- C12: running a pass again with the same input, from the state the first
pass ended in, emits no call and leaves every global (mode, button, detector
flag and timestamp, last pin level) as it is. -/
theorem loop_idempotent (s : State) (i : Input) :
    loop (loop s i).1 i = ((loop s i).1, []) := by
  obtain ⟨hm, hw, ht, hl⟩ := loop_detector s i
  have hfix : mode_change (loop s i).1 i = (loop s i).1 := by
    apply mode_change_fixed
    · rw [hl]
      rfl
    · rw [hw, ht]
      exact mode_change_armed_open s i
  show handle_gears (mode_change (loop s i).1 i) i = ((loop s i).1, [])
  rw [hfix]
  rcases handle_gears_classify (mode_change s i) (loop s i).1 i hm with h | ⟨c, h1, h2⟩
  · exact h.2
  · rw [h2]
    have hc : c = (loop s i).1.cur_button := by
      show c = (handle_gears (mode_change s i) i).1.cur_button
      rw [h1, change_button_cur]
    unfold change_button
    rw [if_pos hc]

/-! ## Button identifiers -/

/-- The gear handling makes no call only outside `H_MODE`; otherwise it calls
`change_button c` with `c` the sentinel `-1` or an identifier from 0 to 9, at
most 6 in `H_MODE`. -/
theorem handle_gears_candidate (s : State) (i : Input) :
    (handle_gears s i = (s, []) ∧ s.cur_mode ≠ modes_t.H_MODE) ∨
    (∃ c : Int, handle_gears s i = change_button c s ∧
      (c = -1 ∨ (0 ≤ c ∧ c ≤ 9)) ∧ (s.cur_mode = modes_t.H_MODE → c ≤ 6)) := by
  unfold handle_gears
  repeat' split
  all_goals first
    | exact Or.inl ⟨rfl, by assumption⟩
    | exact Or.inr ⟨_, rfl, by decide, fun _ => by decide⟩
    | exact Or.inr ⟨_, rfl, by decide, fun h => absurd h (by assumption)⟩

/-- One pass keeps `cur_button` at `-1` or in 0..9 (at most 6 in `H_MODE`)
and only emits calls with identifiers in 0..9. -/
theorem loop_button_range (s : State) (i : Input)
    (hr : s.cur_button = -1 ∨ (0 ≤ s.cur_button ∧ s.cur_button ≤ 9)) :
    ((loop s i).1.cur_button = -1 ∨
      (0 ≤ (loop s i).1.cur_button ∧ (loop s i).1.cur_button ≤ 9)) ∧
    ((loop s i).1.cur_mode = modes_t.H_MODE → (loop s i).1.cur_button ≤ 6) ∧
    (∀ b : Int, Event.release b ∈ (loop s i).2 ∨ Event.press b ∈ (loop s i).2 →
      0 ≤ b ∧ b ≤ 9) := by
  have hcur : ((loop s i).1.cur_button = -1 ∨
      (0 ≤ (loop s i).1.cur_button ∧ (loop s i).1.cur_button ≤ 9)) ∧
      ((loop s i).1.cur_mode = modes_t.H_MODE → (loop s i).1.cur_button ≤ 6) := by
    rw [loop_mode]
    show ((handle_gears (mode_change s i) i).1.cur_button = -1 ∨ _) ∧ _
    rcases handle_gears_candidate (mode_change s i) i with ⟨h, hm⟩ | ⟨c, h, hc, hc6⟩
    · show ((handle_gears (mode_change s i) i).1.cur_button = -1 ∨
          (0 ≤ (handle_gears (mode_change s i) i).1.cur_button ∧
            (handle_gears (mode_change s i) i).1.cur_button ≤ 9)) ∧
        ((mode_change s i).cur_mode = modes_t.H_MODE →
          (handle_gears (mode_change s i) i).1.cur_button ≤ 6)
      rw [h]
      show ((mode_change s i).cur_button = -1 ∨ _) ∧ _
      rw [mode_change_cur_button]
      exact ⟨hr, fun hH => absurd hH hm⟩
    · show ((handle_gears (mode_change s i) i).1.cur_button = -1 ∨
          (0 ≤ (handle_gears (mode_change s i) i).1.cur_button ∧
            (handle_gears (mode_change s i) i).1.cur_button ≤ 9)) ∧
        ((mode_change s i).cur_mode = modes_t.H_MODE →
          (handle_gears (mode_change s i) i).1.cur_button ≤ 6)
      rw [h, change_button_cur]
      exact ⟨hc, hc6⟩
  refine ⟨hcur.1, hcur.2, ?_⟩
  intro b hb
  rcases loop_events_shape s i with h | h | h | h
  · rw [h.1] at hb
    simp at hb
  · rw [h.1] at hb
    simp at hb
    subst hb
    rcases hr with hr | hr
    · exact absurd hr h.2.1
    · exact hr
  · rw [h.1] at hb
    simp at hb
    subst hb
    rcases hcur.1 with hc | hc
    · exact absurd hc h.2.2
    · exact hc
  · rw [h.1] at hb
    simp at hb
    rcases hb with hb | hb
    · subst hb
      rcases hr with hr | hr
      · exact absurd hr h.2.2.1
      · exact hr
    · subst hb
      rcases hcur.1 with hc | hc
      · exact absurd hc h.2.2.2
      · exact hc

/-- Any number of passes keep `cur_button` at `-1` or in 0..9 (at most 6 in
`H_MODE`) and only emit calls with identifiers in 0..9. -/
theorem run_button_range (inputs : List Input) : ∀ s : State,
    (s.cur_button = -1 ∨ (0 ≤ s.cur_button ∧ s.cur_button ≤ 9)) →
    (s.cur_mode = modes_t.H_MODE → s.cur_button ≤ 6) →
    ((run s inputs).1.cur_button = -1 ∨
      (0 ≤ (run s inputs).1.cur_button ∧ (run s inputs).1.cur_button ≤ 9)) ∧
    ((run s inputs).1.cur_mode = modes_t.H_MODE → (run s inputs).1.cur_button ≤ 6) ∧
    (∀ b : Int, Event.release b ∈ (run s inputs).2 ∨ Event.press b ∈ (run s inputs).2 →
      0 ≤ b ∧ b ≤ 9) := by
  induction inputs with
  | nil =>
    intro s hr h6
    refine ⟨hr, h6, ?_⟩
    intro b hb
    simp [run] at hb
  | cons i is ih =>
    intro s hr _
    obtain ⟨h1, h2, h3⟩ := loop_button_range s i hr
    obtain ⟨i1, i2, i3⟩ := ih (loop s i).1 h1 h2
    refine ⟨i1, i2, ?_⟩
    intro b hb
    have hrun : (run s (i :: is)).2 = (loop s i).2 ++ (run (loop s i).1 is).2 := rfl
    rw [hrun, List.mem_append, List.mem_append] at hb
    rcases hb with (hb | hb) | (hb | hb)
    · exact h3 b (Or.inl hb)
    · exact i3 b (Or.inl hb)
    · exact h3 b (Or.inr hb)
    · exact i3 b (Or.inr hb)

/-- C19: in every state reached from the initial globals `cur_button` is `-1`
or an identifier from 0 to 9, and every release or press emitted on the way
carries an identifier from 0 to 9; in particular neither is ever issued with
the sentinel `-1`. -/
theorem button_ids_in_range (inputs : List Input) :
    ((run startup inputs).1.cur_button = -1 ∨
      (0 ≤ (run startup inputs).1.cur_button ∧ (run startup inputs).1.cur_button ≤ 9)) ∧
    (∀ b : Int,
      Event.release b ∈ (run startup inputs).2 ∨ Event.press b ∈ (run startup inputs).2 →
      0 ≤ b ∧ b ≤ 9) ∧
    Event.release (-1) ∉ (run startup inputs).2 ∧
    Event.press (-1) ∉ (run startup inputs).2 := by
  obtain ⟨h1, _, h3⟩ := run_button_range inputs startup (Or.inl rfl) (fun _ => by decide)
  refine ⟨h1, h3, ?_, ?_⟩
  · intro h
    have := (h3 (-1) (Or.inl h)).1
    omega
  · intro h
    have := (h3 (-1) (Or.inr h)).1
    omega

/-! ## Classification after a mode switch in the same pass -/

/-- C13: in a state reached from the initial globals, in `H_MODE`, holding a
button `a`, with `last_button_state` at `LOW` and the detector armed, a pass
with the pin at `HIGH` inside the window and `vert < 1000` ends in
`SEQUENTIAL` with button 7 and emits exactly release `a` followed by
press 7. -/
theorem mode_switch_releases_before_press (inputs : List Input) (i : Input)
    (hmode : (run startup inputs).1.cur_mode = modes_t.H_MODE)
    (ha : (run startup inputs).1.cur_button ≠ -1)
    (hl : (run startup inputs).1.last_button_state = LOW)
    (hw : (run startup inputs).1.waiting_for_second_press = true)
    (hb : i.button = HIGH)
    (hel : ulong_sub (millis i) (run startup inputs).1.last_press_time ≤ 400)
    (hv : i.vert < 1000) :
    (loop (run startup inputs).1 i).1.cur_mode = modes_t.SEQUENTIAL ∧
    (loop (run startup inputs).1 i).1.cur_button = 7 ∧
    (loop (run startup inputs).1 i).2 =
      [Event.release (run startup inputs).1.cur_button, Event.press 7] := by
  obtain ⟨_, h6, _⟩ := run_button_range inputs startup (Or.inl rfl) (fun _ => by decide)
  have hle := h6 hmode
  obtain ⟨hm, _⟩ := loop_rising_armed (run startup inputs).1 i hb hl hw
  rw [if_pos hel, hmode] at hm
  have hseq : (loop (run startup inputs).1 i).1.cur_mode = modes_t.SEQUENTIAL := hm
  have key := loop_sequential (run startup inputs).1 i hseq
  rw [if_pos hv] at key
  refine ⟨hseq, ?_, ?_⟩
  · rw [key, change_button_cur]
  · rw [key, change_button_events, mode_change_cur_button]
    have h7 : ¬ (7 : Int) = (run startup inputs).1.cur_button := by omega
    rw [if_neg h7, if_pos ha, if_pos (by decide)]
    rfl

/-- Witness of `mode_switch_releases_before_press`: a first rising edge with
the stick up-centre arms the detector and presses button 2; after a pass at
`LOW`, a second rising edge at 50 ms switches to `SEQUENTIAL` and emits
release 2, press 7. -/
theorem mode_switch_releases_before_press_witness :
    (run startup [⟨1700, 300, HIGH, 0, 0⟩, ⟨1700, 300, LOW, 25, 25⟩]).1.cur_button = 2 ∧
    (loop (run startup [⟨1700, 300, HIGH, 0, 0⟩, ⟨1700, 300, LOW, 25, 25⟩]).1
      ⟨1700, 300, HIGH, 50, 50⟩).1.cur_mode = modes_t.SEQUENTIAL ∧
    (loop (run startup [⟨1700, 300, HIGH, 0, 0⟩, ⟨1700, 300, LOW, 25, 25⟩]).1
      ⟨1700, 300, HIGH, 50, 50⟩).1.cur_button = 7 ∧
    (loop (run startup [⟨1700, 300, HIGH, 0, 0⟩, ⟨1700, 300, LOW, 25, 25⟩]).1
      ⟨1700, 300, HIGH, 50, 50⟩).2 =
      [Event.release (run startup [⟨1700, 300, HIGH, 0, 0⟩, ⟨1700, 300, LOW, 25, 25⟩]).1.cur_button,
        Event.press 7] :=
  ⟨by decide,
   mode_switch_releases_before_press [⟨1700, 300, HIGH, 0, 0⟩, ⟨1700, 300, LOW, 25, 25⟩]
     ⟨1700, 300, HIGH, 50, 50⟩ (by decide) (by decide) (by decide) (by decide) (by decide)
     (by decide) (by decide)⟩

/-! ## The window test and the wrap of the clock -/

/-- The elapsed time computed by the code is the difference of the two
timestamps modulo `2^32`. -/
theorem ulong_sub_eq_emod (a b : Nat) :
    ((ulong_sub (a % ULONG_MOD) (b % ULONG_MOD) : Nat) : Int) =
      ((a : Int) - (b : Int)) % 4294967296 := by
  unfold ulong_sub ULONG_MOD
  omega

/-- The window test of the code, on two clock readings, in terms of the
difference of the timestamps modulo `2^32`. -/
theorem window_test_iff (a b : Nat) :
    ulong_sub (a % ULONG_MOD) (b % ULONG_MOD) ≤ 400 ↔
      ((a : Int) - (b : Int)) % 4294967296 ≤ 400 := by
  rw [← ulong_sub_eq_emod]
  omega

/-- C14: the window test survives the wrap of the 32 bit millisecond counter.
From a disarmed detector with `last_button_state` at `LOW`, a first rising
edge at clock value `first.now`, one or more passes at `LOW` that do not let
the window expire (nor does the expiry test of the first pass), and a second
rising edge at clock value `last.now` advance the mode exactly when
`(last.now - first.now) mod 2^32 ≤ 400`, also when `last.now` is numerically
below `first.now`. -/
theorem window_test_wraparound (s : State) (first last : Input) (mid : List Input)
    (hw : s.waiting_for_second_press = false) (hl : s.last_button_state = LOW)
    (hf : first.button = HIGH)
    (hf2 : ((first.now2 : Int) - (first.now : Int)) % 4294967296 ≤ 400)
    (hmid : mid ≠ [])
    (hlow : ∀ x ∈ mid, x.button = LOW ∧
      ((x.now2 : Int) - (first.now : Int)) % 4294967296 ≤ 400)
    (hlast : last.button = HIGH) :
    (run s (first :: (mid ++ [last]))).1.cur_mode =
      (if ((last.now : Int) - (first.now : Int)) % 4294967296 ≤ 400
        then next_mode s.cur_mode else s.cur_mode) := by
  obtain ⟨h1m, h1t, _, h1w⟩ := loop_rising_disarmed s first hf hl hw
  obtain ⟨h2m, h2t, h2l, h2w⟩ := run_low mid (loop s first).1 (fun x hx => (hlow x hx).1)
  have hfinal : (run s (first :: (mid ++ [last]))).1 =
      (loop (run (loop s first).1 mid).1 last).1 := by
    show (run (loop s first).1 (mid ++ [last])).1 = _
    rw [run_append]
    rfl
  have harmed : (run (loop s first).1 mid).1.waiting_for_second_press = true := by
    rw [h2w]
    constructor
    · rw [h1w]
      exact (window_test_iff first.now2 first.now).2 hf2
    · intro x hx
      rw [h1t]
      exact (window_test_iff x.now2 first.now).2 (hlow x hx).2
  obtain ⟨hm, _⟩ := loop_rising_armed _ last hlast (h2l hmid) harmed
  rw [hfinal, hm, h2t, h1t, h2m, h1m]
  unfold millis
  by_cases hc : ((last.now : Int) - (first.now : Int)) % 4294967296 ≤ 400
  · rw [if_pos hc, if_pos ((window_test_iff last.now first.now).2 hc)]
  · rw [if_neg hc, if_neg (fun h => hc ((window_test_iff last.now first.now).1 h))]

/-- Witness of `window_test_wraparound`: the detector is armed at
`2^32 - 100`, the counter wraps, and the second rising edge at clock value 100
(200 ms later) advances the mode. -/
theorem window_test_wraparound_witness :
    (run startup (⟨1725, 1850, HIGH, 4294967196, 4294967197⟩ ::
      ([⟨1725, 1850, LOW, 50, 50⟩] ++ [⟨1725, 1850, HIGH, 100, 101⟩]))).1.cur_mode =
      (if (((100 : Nat) : Int) - ((4294967196 : Nat) : Int)) % 4294967296 ≤ 400
        then next_mode startup.cur_mode else startup.cur_mode) ∧
    (((100 : Nat) : Int) - ((4294967196 : Nat) : Int)) % 4294967296 = 200 :=
  ⟨window_test_wraparound startup ⟨1725, 1850, HIGH, 4294967196, 4294967197⟩
     ⟨1725, 1850, HIGH, 100, 101⟩ [⟨1725, 1850, LOW, 50, 50⟩] rfl rfl rfl (by decide)
     (by decide) (by decide) rfl,
   by decide⟩

/-! ## A rising edge after the window has expired -/

/-- C15 (as the code has it): a rising edge that arrives while the detector
is armed with its window expired (at the window test and at the expiry test
of the pass) does not advance the mode and does not arm the detector again:
the pass ends with the detector disarmed and the timestamp unchanged.  After
one or more passes at `LOW`, the next rising edge leaves the mode alone as
well and arms the detector at its own time (its expiry test coming at most
400 ms after its arming). -/
theorem expired_edge_disarms (s : State) (i : Input)
    (hb : i.button = HIGH) (hl : s.last_button_state = LOW)
    (hw : s.waiting_for_second_press = true)
    (hexp : 400 < ulong_sub (millis i) s.last_press_time)
    (hexp2 : 400 < ulong_sub (millis2 i) s.last_press_time) :
    (loop s i).1.cur_mode = s.cur_mode ∧
    (loop s i).1.waiting_for_second_press = false ∧
    (loop s i).1.last_press_time = s.last_press_time ∧
    (∀ (mid : List Input) (j : Input), mid ≠ [] → (∀ x ∈ mid, x.button = LOW) →
      j.button = HIGH → ulong_sub (millis2 j) (millis j) ≤ 400 →
      (run (loop s i).1 (mid ++ [j])).1.cur_mode = s.cur_mode ∧
      (run (loop s i).1 (mid ++ [j])).1.waiting_for_second_press = true ∧
      (run (loop s i).1 (mid ++ [j])).1.last_press_time = millis j) := by
  obtain ⟨hm, ht, _, hw2⟩ := loop_rising_armed s i hb hl hw
  have hnot : ¬ ulong_sub (millis i) s.last_press_time ≤ 400 := by omega
  have hnot2 : ¬ ulong_sub (millis2 i) s.last_press_time ≤ 400 := by omega
  rw [if_neg hnot] at hm
  have hdis : (loop s i).1.waiting_for_second_press = false := by
    cases hc : (loop s i).1.waiting_for_second_press
    · rfl
    · exact absurd (hw2.1 hc) hnot2
  refine ⟨hm, hdis, ht, ?_⟩
  intro mid j hmid hlow hj hj2
  obtain ⟨h2m, _, h2l, h2w⟩ := run_low mid (loop s i).1 hlow
  have hdis2 : (run (loop s i).1 mid).1.waiting_for_second_press = false := by
    cases hc : (run (loop s i).1 mid).1.waiting_for_second_press
    · rfl
    · have h := (h2w.1 hc).1
      rw [hdis] at h
      exact absurd h (by decide)
  obtain ⟨h3m, h3t, _, h3w⟩ := loop_rising_disarmed _ j hj (h2l hmid) hdis2
  have hfinal : (run (loop s i).1 (mid ++ [j])).1 =
      (loop (run (loop s i).1 mid).1 j).1 := by
    rw [run_append]
    rfl
  rw [hfinal]
  exact ⟨h3m.trans (h2m.trans hm), h3w.2 hj2, h3t⟩

/-- Witness of `expired_edge_disarms`: the detector armed at 0 ms and a
rising edge at 415 ms. -/
theorem expired_edge_disarms_witness :
    (400 < ulong_sub (millis ⟨1725, 1850, HIGH, 415, 416⟩) 0) ∧
    (400 < ulong_sub (millis2 ⟨1725, 1850, HIGH, 415, 416⟩) 0) ∧
    (loop ⟨LOW, 0, true, -1, modes_t.H_MODE⟩ ⟨1725, 1850, HIGH, 415, 416⟩).1.cur_mode =
      modes_t.H_MODE ∧
    (loop ⟨LOW, 0, true, -1, modes_t.H_MODE⟩
      ⟨1725, 1850, HIGH, 415, 416⟩).1.waiting_for_second_press = false ∧
    (run (loop ⟨LOW, 0, true, -1, modes_t.H_MODE⟩ ⟨1725, 1850, HIGH, 415, 416⟩).1
      ([⟨1725, 1850, LOW, 440, 440⟩] ++
        [⟨1725, 1850, HIGH, 465, 465⟩])).1.last_press_time =
      millis ⟨1725, 1850, HIGH, 465, 465⟩ :=
  ⟨by decide, by decide,
   (expired_edge_disarms ⟨LOW, 0, true, -1, modes_t.H_MODE⟩ ⟨1725, 1850, HIGH, 415, 416⟩
     rfl rfl rfl (by decide) (by decide)).1,
   (expired_edge_disarms ⟨LOW, 0, true, -1, modes_t.H_MODE⟩ ⟨1725, 1850, HIGH, 415, 416⟩
     rfl rfl rfl (by decide) (by decide)).2.1,
   ((expired_edge_disarms ⟨LOW, 0, true, -1, modes_t.H_MODE⟩ ⟨1725, 1850, HIGH, 415, 416⟩
     rfl rfl rfl (by decide) (by decide)).2.2.2 [⟨1725, 1850, LOW, 440, 440⟩]
     ⟨1725, 1850, HIGH, 465, 465⟩ (by decide) (by decide) rfl (by decide)).2.2⟩

/-- C15 (as stated) fails: from the initial globals, a rising edge at 0 ms
arms the detector, which is still armed after a pass at 390 ms; the rising
edge at 415 ms finds it armed with the window expired, does not advance the
mode, and ends with the detector disarmed and the timestamp still 0, not 415;
a further rising edge at 465 ms, 50 ms later, does not advance the mode. -/
theorem expired_edge_does_not_rearm :
    (run startup [⟨1725, 1850, HIGH, 0, 0⟩,
      ⟨1725, 1850, LOW, 390, 390⟩]).1.waiting_for_second_press = true ∧
    (run startup [⟨1725, 1850, HIGH, 0, 0⟩,
      ⟨1725, 1850, LOW, 390, 390⟩]).1.last_press_time = 0 ∧
    400 < ulong_sub (millis ⟨1725, 1850, HIGH, 415, 415⟩) 0 ∧
    400 < ulong_sub (millis2 ⟨1725, 1850, HIGH, 415, 415⟩) 0 ∧
    (run startup [⟨1725, 1850, HIGH, 0, 0⟩, ⟨1725, 1850, LOW, 390, 390⟩,
      ⟨1725, 1850, HIGH, 415, 415⟩]).1.cur_mode = modes_t.H_MODE ∧
    (run startup [⟨1725, 1850, HIGH, 0, 0⟩, ⟨1725, 1850, LOW, 390, 390⟩,
      ⟨1725, 1850, HIGH, 415, 415⟩]).1.waiting_for_second_press = false ∧
    (run startup [⟨1725, 1850, HIGH, 0, 0⟩, ⟨1725, 1850, LOW, 390, 390⟩,
      ⟨1725, 1850, HIGH, 415, 415⟩]).1.last_press_time = 0 ∧
    (run startup [⟨1725, 1850, HIGH, 0, 0⟩, ⟨1725, 1850, LOW, 390, 390⟩,
      ⟨1725, 1850, HIGH, 415, 415⟩, ⟨1725, 1850, LOW, 440, 440⟩,
      ⟨1725, 1850, HIGH, 465, 465⟩]).1.cur_mode = modes_t.H_MODE := by
  decide

/-! ## Several rising edges inside one window -/

/-- A pass on an armed detector whose window is open at both clock reads: the
mode advances exactly on a rising edge, and the detector stays armed with its
timestamp. -/
theorem loop_armed_open (s : State) (i : Input)
    (hw : s.waiting_for_second_press = true)
    (hel : ulong_sub (millis i) s.last_press_time ≤ 400)
    (hel2 : ulong_sub (millis2 i) s.last_press_time ≤ 400) :
    (loop s i).1.cur_mode =
      (if i.button ≠ s.last_button_state ∧ i.button = HIGH then next_mode s.cur_mode
       else s.cur_mode) ∧
    (loop s i).1.waiting_for_second_press = true ∧
    (loop s i).1.last_press_time = s.last_press_time ∧
    (loop s i).1.last_button_state = i.button := by
  by_cases hedge : i.button ≠ s.last_button_state ∧ i.button = HIGH
  · have hlow : s.last_button_state = LOW := by
      cases hs : s.last_button_state
      · rfl
      · exact absurd (hedge.2.trans hs.symm) hedge.1
    obtain ⟨h1, h2, h3, h4⟩ := loop_rising_armed s i hedge.2 hlow hw
    rw [if_pos hel] at h1
    rw [if_pos hedge]
    exact ⟨h1, h4.2 hel2, h2, h3.trans hedge.2.symm⟩
  · obtain ⟨hm, hw2, ht, hl⟩ := loop_detector s i
    rw [hm, hw2, ht, hl, if_neg hedge]
    have hgt : ¬ 400 < ulong_sub (millis2 i) s.last_press_time := by omega
    simp only [mode_change, if_neg hedge, hw, DOUBLE_PRESS_WINDOW]
    simp [hgt, hw]

/-- Passes on an armed detector that all fall inside its window, at both
clock reads: the mode has advanced once per rising edge, and the detector is
still armed with its timestamp. -/
theorem run_armed_open (inputs : List Input) : ∀ s : State,
    s.waiting_for_second_press = true →
    (∀ x ∈ inputs, ulong_sub (millis x) s.last_press_time ≤ 400 ∧
      ulong_sub (millis2 x) s.last_press_time ≤ 400) →
    (run s inputs).1.cur_mode =
      Nat.iterate next_mode (rising_edges s.last_button_state inputs) s.cur_mode ∧
    (run s inputs).1.waiting_for_second_press = true ∧
    (run s inputs).1.last_press_time = s.last_press_time := by
  induction inputs with
  | nil =>
    intro s hw _
    exact ⟨rfl, hw, rfl⟩
  | cons i is ih =>
    intro s hw hin
    obtain ⟨hm, hw1, ht, hl⟩ :=
      loop_armed_open s i hw (hin i (List.mem_cons_self i is)).1
        (hin i (List.mem_cons_self i is)).2
    obtain ⟨ihm, ihw, iht⟩ := ih (loop s i).1 hw1 (fun x hx => by
      rw [ht]
      exact hin x (List.mem_cons_of_mem i hx))
    refine ⟨?_, ihw, iht.trans ht⟩
    show (run (loop s i).1 is).1.cur_mode = _
    rw [ihm, hl, hm]
    show _ = Nat.iterate next_mode
      ((if i.button ≠ s.last_button_state ∧ i.button = HIGH then 1 else 0) +
        rising_edges i.button is) s.cur_mode
    by_cases hedge : i.button ≠ s.last_button_state ∧ i.button = HIGH
    · rw [if_pos hedge, if_pos hedge, Nat.add_comm, Function.iterate_succ_apply]
    · rw [if_neg hedge, if_neg hedge, Nat.zero_add]

/-- C20 (as the code has it): while the detector is armed at `t0`, a pass with
a rising edge whose window test falls inside the window advances the mode by
one step and leaves the timestamp at `t0`; the detector is still armed at the
end of that pass exactly when its expiry test falls inside the window too.
Over any sequence of passes that fall inside the window at both clock reads,
the mode advances once per rising edge while the detector stays armed at `t0`,
so that three such edges bring the mode back to where it was. -/
theorem edges_inside_open_window_advance (s : State) (inputs : List Input)
    (hw : s.waiting_for_second_press = true)
    (hin : ∀ x ∈ inputs, ulong_sub (millis x) s.last_press_time ≤ 400 ∧
      ulong_sub (millis2 x) s.last_press_time ≤ 400) :
    (∀ i : Input, i.button = HIGH → s.last_button_state = LOW →
      ulong_sub (millis i) s.last_press_time ≤ 400 →
      (loop s i).1.cur_mode = next_mode s.cur_mode ∧
      (loop s i).1.last_press_time = s.last_press_time ∧
      ((loop s i).1.waiting_for_second_press = true ↔
        ulong_sub (millis2 i) s.last_press_time ≤ 400)) ∧
    (run s inputs).1.cur_mode =
      Nat.iterate next_mode (rising_edges s.last_button_state inputs) s.cur_mode ∧
    (run s inputs).1.waiting_for_second_press = true ∧
    (run s inputs).1.last_press_time = s.last_press_time ∧
    (rising_edges s.last_button_state inputs = 3 →
      (run s inputs).1.cur_mode = s.cur_mode) := by
  obtain ⟨hm, hw2, ht⟩ := run_armed_open inputs s hw hin
  refine ⟨?_, hm, hw2, ht, ?_⟩
  · intro i hb hl hel
    obtain ⟨h1, h2, _, h4⟩ := loop_rising_armed s i hb hl hw
    rw [if_pos hel] at h1
    exact ⟨h1, h2, h4⟩
  · intro h3
    rw [hm, h3]
    cases s.cur_mode <;> rfl

/-- Witness of `edges_inside_open_window_advance`: the detector armed at 0 ms
in `H_MODE`, then three rising edges at 50, 100 and 150 ms: the mode is back
at `H_MODE` and the detector is still armed at 0 ms. -/
theorem edges_inside_open_window_advance_witness :
    rising_edges LOW [⟨1725, 1850, HIGH, 50, 51⟩, ⟨1725, 1850, LOW, 75, 75⟩,
      ⟨1725, 1850, HIGH, 100, 101⟩, ⟨1725, 1850, LOW, 125, 125⟩,
      ⟨1725, 1850, HIGH, 150, 151⟩] = 3 ∧
    (run ⟨LOW, 0, true, -1, modes_t.H_MODE⟩ [⟨1725, 1850, HIGH, 50, 51⟩,
      ⟨1725, 1850, LOW, 75, 75⟩, ⟨1725, 1850, HIGH, 100, 101⟩, ⟨1725, 1850, LOW, 125, 125⟩,
      ⟨1725, 1850, HIGH, 150, 151⟩]).1.cur_mode = modes_t.H_MODE ∧
    (run ⟨LOW, 0, true, -1, modes_t.H_MODE⟩ [⟨1725, 1850, HIGH, 50, 51⟩,
      ⟨1725, 1850, LOW, 75, 75⟩, ⟨1725, 1850, HIGH, 100, 101⟩, ⟨1725, 1850, LOW, 125, 125⟩,
      ⟨1725, 1850, HIGH, 150, 151⟩]).1.waiting_for_second_press = true :=
  ⟨by decide,
   (edges_inside_open_window_advance ⟨LOW, 0, true, -1, modes_t.H_MODE⟩
     [⟨1725, 1850, HIGH, 50, 51⟩, ⟨1725, 1850, LOW, 75, 75⟩, ⟨1725, 1850, HIGH, 100, 101⟩,
      ⟨1725, 1850, LOW, 125, 125⟩, ⟨1725, 1850, HIGH, 150, 151⟩] rfl
     (by decide)).2.2.2.2 (by decide),
   (edges_inside_open_window_advance ⟨LOW, 0, true, -1, modes_t.H_MODE⟩
     [⟨1725, 1850, HIGH, 50, 51⟩, ⟨1725, 1850, LOW, 75, 75⟩, ⟨1725, 1850, HIGH, 100, 101⟩,
      ⟨1725, 1850, LOW, 125, 125⟩, ⟨1725, 1850, HIGH, 150, 151⟩] rfl
     (by decide)).2.2.1⟩

/-- C20 (as stated) fails: from the initial globals, a rising edge at 0 ms
arms the detector, still armed at 0 ms after a pass at `LOW`; the next rising
edge is tested against the window at 400 ms, inside it, and advances the mode
to `SEQUENTIAL`, but the expiry test of the same pass reads the clock at
401 ms and disarms the detector, so the pass does not leave it armed. -/
theorem edge_at_window_end_disarms :
    (run startup [⟨1725, 1850, HIGH, 0, 0⟩,
      ⟨1725, 1850, LOW, 25, 25⟩]).1.waiting_for_second_press = true ∧
    (run startup [⟨1725, 1850, HIGH, 0, 0⟩,
      ⟨1725, 1850, LOW, 25, 25⟩]).1.last_press_time = 0 ∧
    (run startup [⟨1725, 1850, HIGH, 0, 0⟩,
      ⟨1725, 1850, LOW, 25, 25⟩]).1.last_button_state = LOW ∧
    (run startup [⟨1725, 1850, HIGH, 0, 0⟩,
      ⟨1725, 1850, LOW, 25, 25⟩]).1.cur_mode = modes_t.H_MODE ∧
    ulong_sub (millis ⟨1725, 1850, HIGH, 400, 401⟩) 0 ≤ 400 ∧
    (loop (run startup [⟨1725, 1850, HIGH, 0, 0⟩, ⟨1725, 1850, LOW, 25, 25⟩]).1
      ⟨1725, 1850, HIGH, 400, 401⟩).1.cur_mode = modes_t.SEQUENTIAL ∧
    (loop (run startup [⟨1725, 1850, HIGH, 0, 0⟩, ⟨1725, 1850, LOW, 25, 25⟩]).1
      ⟨1725, 1850, HIGH, 400, 401⟩).1.waiting_for_second_press = false := by
  decide

end Shifter
